import Mathlib

/-!
Verification of the sequelize-socket-interface connection protocol.

The development shallowly embeds the server-side data handler of
`ModelServer` (the connection handler attached in the constructor, together
with its helpers `resolved`, `sendError`, `_getModelName`, `_getPlainObject`)
and the client-side `ModelClient._write`, and proves properties of the
request/response dispatch and the per-connection record cache.

Modelling conventions:
- JSON-compatible runtime values are the inductive `JVal`; provider record
  instances are represented by `JVal.vRec id`, with the behaviour of the
  record (its provenance, its `get`/`toJSON` extraction and its dynamically
  named methods) supplied by an environment `Env`, since the two backend
  providers are external collaborators of this core.
- A dynamically invoked method returns a `CallResult`: a synchronous value,
  a promise that fulfills, a promise that rejects, or a synchronous throw.
- The socket object carries dynamically added properties (the two provider
  references and the per-tenant caches) in one string-keyed namespace,
  exactly as JavaScript property assignment does; `SockState.props` is that
  namespace.
- Per-tenant caches hold the `data` and `dataSets` maps as functions from
  the derived model name.
- Built-in methods of arrays are outside the embedded code and are supplied
  by the environment (`Env.arrayMethod`); built-in methods of primitive
  values and custom thenable records are not modelled (provider records are
  not thenables, so a record method named then is treated as absent).
-/

/-- A JavaScript runtime value as visible to the protocol: JSON values plus
provider record instances (`vRec`, identified by an id resolved through the
environment). -/
inductive JVal where
  | vUndefined
  | vNull
  | vBool (b : Bool)
  | vNum (n : Int)
  | vStr (s : String)
  | vArr (xs : List JVal)
  | vPlain (fields : List (String × JVal))
  | vRec (id : Nat)

/-- Result of a dynamically dispatched method call: synchronous value,
fulfilled promise, rejected promise, or synchronous throw. -/
inductive CallResult where
  | sync (v : JVal)
  | promiseOk (v : JVal)
  | promiseErr (m : String)
  | throws (m : String)

/-- Runtime provenance of a record, as tested by `_getModelName`:
a sequelize instance (its `Model.name`), a mongoose document (its
`constructor.modelName`), or neither. -/
inductive Provenance where
  | mySqlModel (name : String)
  | mongoModel (name : String)
  | raw

/-- Behaviour of one record instance: provenance, the `get` / `toJSON`
extraction operations (when present), and the dynamically named instance
methods. -/
structure RecInfo where
  prov : Provenance
  hasGet : Bool
  plainGet : JVal
  hasToJSON : Bool
  plainToJSON : JVal
  methods : String → Option (List JVal → CallResult)

/-- The external collaborators: record behaviour, the relational provider
(`require(joinCwd('/models'))`, a map tenant → model → method), the document
provider (`require(joinCwd('/mongo_database'))`, a map tenant →
`.model(name)` → method), and the built-in methods of arrays. -/
structure Env where
  recs : Nat → RecInfo
  mySql : String → Option (String → Option (String → Option (List JVal → CallResult)))
  mongoConn : String → Option (String → Option (String → Option (List JVal → CallResult)))
  arrayMethod : List JVal → String → List JVal → CallResult

/-- One tenant's record cache: the object `{data: {}, dataSets: {}}` stored
at `socket[tenant]`. -/
@[ext]
structure TenantCache where
  data : String → Option JVal
  dataSets : String → Option (List JVal)

/-- The freshly initialized tenant cache `{data: {}, dataSets: {}}`. -/
def emptyCache : TenantCache := ⟨fun _ => none, fun _ => none⟩

/-- `cache.data[name] = record`. -/
def putSingle (c : TenantCache) (name : String) (v : JVal) : TenantCache :=
  { c with data := fun k => if k = name then some v else c.data k }

/-- `cache.dataSets[name] = records`. -/
def putSet (c : TenantCache) (name : String) (vs : List JVal) : TenantCache :=
  { c with dataSets := fun k => if k = name then some vs else c.dataSets k }

/-- A dynamically added socket property: one of the two provider references
attached at connection time, or a tenant cache. -/
inductive SockProp where
  | mySqlRef
  | mongoRef
  | cache (c : TenantCache)

/-- The per-connection state: the socket's dynamic property namespace
(provider references and tenant caches live in the same namespace) and
whether the socket has been destroyed (only the timeout handler destroys). -/
@[ext]
structure SockState where
  props : String → Option SockProp
  destroyed : Bool

/-- Socket state right after the connection handler ran:
`socket.MySql = this.MySql; socket.Mongo = this.Mongo`. -/
def initSock : SockState :=
  ⟨fun k => if k = "MySql" then some .mySqlRef
            else if k = "Mongo" then some .mongoRef else none, false⟩

/-- `socket[k] = p`. -/
def setProp (s : SockState) (k : String) (p : SockProp) : SockState :=
  { s with props := fun x => if x = k then some p else s.props x }

/-- The timeout handler: `socket.on('timeout', () => socket.destroy())`. -/
def onTimeout (s : SockState) : SockState := { s with destroyed := true }

/-- An inbound chunk after the `JSON.parse` attempt: either the parse threw
(with the parse error's message) or it produced a value. -/
inductive Inbound where
  | badJson (m : String)
  | parsed (v : JVal)

/-- A message written back on the socket: `JSON.stringify(record)` for a
payload, or `JSON.stringify({error: message})` from `sendError`. -/
inductive OutMsg where
  | payload (v : JVal)
  | errMsg (m : String)

/-- Result of running the data handler on one inbound chunk: the new socket
state, the messages written (in order), and the messages of asynchronous
rejections that no handler caught. -/
structure HandleResult where
  state : SockState
  out : List OutMsg
  unhandled : List String

/-- JavaScript falsiness, as tested by `if (!data)`. -/
def jsFalsy : JVal → Bool
  | .vNull => true
  | .vUndefined => true
  | .vBool b => !b
  | .vNum n => n == 0
  | .vStr s => s.isEmpty
  | _ => false

/-- JavaScript truthiness. -/
def jsTruthy (v : JVal) : Bool := !(jsFalsy v)

/-- Strict equality of a value against a string literal, as in
`db !== 'data'`. -/
def JVal.isStr : JVal → String → Bool
  | .vStr t, s => t == s
  | _, _ => false

/-- Property read `v[key]` on a (truthy) value: objects resolve their
fields, everything else yields undefined. (Prototype properties of
primitives and arrays are not needed on this path.) -/
def getProp : JVal → String → JVal
  | .vPlain fs, k => ((fs.find? (fun p => p.1 == k)).map (·.2)).getD .vUndefined
  | _, _ => .vUndefined

/-- Scalar form of one array element under string coercion (null and
undefined elements become empty; nested containers never occur as property
keys on any path considered here and are flattened shallowly). -/
def toKeyScalar : JVal → String
  | .vStr s => s
  | .vUndefined => ""
  | .vNull => ""
  | .vBool b => if b then "true" else "false"
  | .vNum n => toString n
  | .vArr _ => ""
  | .vPlain _ => "[object Object]"
  | .vRec _ => "[object Object]"

/-- Coercion of a value to a property key, as JavaScript does in
`socket[tenant]` (`String(v)`): undefined and null become the strings
undefined and null, numbers and booleans their decimal/word form, arrays
join their elements with commas. -/
def toKey : JVal → String
  | .vStr s => s
  | .vUndefined => "undefined"
  | .vNull => "null"
  | .vBool b => if b then "true" else "false"
  | .vNum n => toString n
  | .vArr xs => String.intercalate "," (xs.map toKeyScalar)
  | .vPlain _ => "[object Object]"
  | .vRec _ => "[object Object]"

/-- `ModelServer._getModelName`: derive the cache key from a record's
provenance, lower-casing the first character; values traceable to neither
provider are tagged raw; reading `.Model` on null or undefined throws. -/
def getModelName (env : Env) : JVal → Except String String
  | .vNull => .error "TypeError: Cannot read properties of null reading Model"
  | .vUndefined => .error "TypeError: Cannot read properties of undefined reading Model"
  | .vRec id =>
    match (env.recs id).prov with
    | .mySqlModel n =>
      match n.data with
      | [] => .error "TypeError: Cannot read properties of undefined reading toLowerCase"
      | c :: cs => .ok (String.mk (c.toLower :: cs))
    | .mongoModel n =>
      match n.data with
      | [] => .error "TypeError: Cannot read properties of undefined reading toLowerCase"
      | c :: cs => .ok (String.mk (c.toLower :: cs))
    | .raw => .ok "raw"
  | _ => .ok "raw"

/-- `ModelServer._getPlainObject`: extract a transport-safe form. A
relational record with `get` yields `record.get()`; a document record with
`toJSON` yields `record.toJSON()`; everything else passes through — except
that under type MySql/Mongo the `record.get` / `record.toJSON` property
read itself throws when the record is null or undefined, and a plain
object carrying a truthy `get`/`toJSON` data field would be called and
throw, since data fields are not functions. -/
def getPlainObject (env : Env) (ty : JVal) (record : JVal) : Except String JVal :=
  if ty.isStr "MySql" then
    match record with
    | .vNull => .error "TypeError: Cannot read properties of null reading get"
    | .vUndefined => .error "TypeError: Cannot read properties of undefined reading get"
    | .vRec id => if (env.recs id).hasGet then .ok (env.recs id).plainGet else .ok record
    | .vPlain fs =>
      if jsTruthy (getProp (.vPlain fs) "get") then
        .error "TypeError: record.get is not a function"
      else .ok record
    | r => .ok r
  else if ty.isStr "Mongo" then
    match record with
    | .vNull => .error "TypeError: Cannot read properties of null reading toJSON"
    | .vUndefined => .error "TypeError: Cannot read properties of undefined reading toJSON"
    | .vRec id => if (env.recs id).hasToJSON then .ok (env.recs id).plainToJSON else .ok record
    | .vPlain fs =>
      if jsTruthy (getProp (.vPlain fs) "toJSON") then
        .error "TypeError: record.toJSON is not a function"
      else .ok record
    | r => .ok r
  else .ok record

/-- Element-wise normalization of an array by
`record.forEach((e, i) => record[i] = _getPlainObject(e, db))`:
returns the array as the loop leaves it, together with the thrown message
if an element threw (elements after the throw stay unreplaced). -/
def normalizeList (env : Env) (ty : JVal) : List JVal → List JVal × Option String
  | [] => ([], none)
  | x :: xs =>
    match getPlainObject env ty x with
    | .error m => (x :: xs, some m)
    | .ok p =>
      let r := normalizeList env ty xs
      (p :: r.1, r.2)

/-- Dynamic call `target[method](...params)` on a cached value: records
resolve through their method table, arrays through the built-in array
methods of the environment; on anything else the property is not callable
(or not readable) and the call throws. -/
def invokeVal (env : Env) (target : JVal) (methodK : String) (params : List JVal) : CallResult :=
  match target with
  | .vRec id =>
    match (env.recs id).methods methodK with
    | some f => f params
    | none => .throws "TypeError: record method is not a function"
  | .vArr xs => env.arrayMethod xs methodK params
  | .vNull => .throws "TypeError: Cannot read properties of null"
  | .vUndefined => .throws "TypeError: Cannot read properties of undefined"
  | _ => .throws "TypeError: target method is not a function"

/-- In JavaScript, `typeof v === 'object'`. -/
def typeofIsObject : JVal → Bool
  | .vNull => true
  | .vArr _ => true
  | .vPlain _ => true
  | .vRec _ => true
  | _ => false

/-- The check `typeof promise === 'object' && promise.then` applied to a
synchronously returned value. Reading `.then` on null throws; a plain
object with a truthy `then` field counts as thenable (and the subsequent
call then throws); records and arrays are not thenables. -/
def isThenable (v : JVal) : Except String Bool :=
  if typeofIsObject v then
    match v with
    | .vNull => .error "TypeError: Cannot read properties of null reading then"
    | .vPlain fs => .ok (jsTruthy (getProp (.vPlain fs) "then"))
    | _ => .ok false
  else .ok false

/-- Reading `socket[tenant]` and its `data`/`dataSets` member as the target
of a cache store: only a tenant cache admits the assignment; on undefined
or a provider reference the member chain throws. -/
def lookupCache (s : SockState) (k : String) : Except String TenantCache :=
  match s.props k with
  | some (.cache c) => .ok c
  | some _ => .error "TypeError: Cannot set properties of undefined"
  | none => .error "TypeError: Cannot read properties of undefined"

/-- The callback `resolved(record)` (closure over `db`, `tenant`, the
socket and the server instance). Returns the socket state after the call
(the cache store survives a later throw) together with the written payload,
or the message thrown inside `resolved`. The in-place element replacement
of a stored array is reflected directly: the array object stored in
`dataSets` is the one the `forEach` mutates, so the cached entry is the
normalized array. -/
def resolvedFn (env : Env) (db tenant : JVal) (s : SockState) (record0 : JVal) :
    SockState × Except String OutMsg :=
  let record := match record0 with | .vUndefined => JVal.vNull | r => r
  let cached := db.isStr "data" || db.isStr "dataSets"
  match record with
  | .vArr xs =>
    if cached then
      let pr := normalizeList env db xs
      match pr.2 with
      | some m => (s, .error m)
      | none => (s, .ok (.payload (.vArr pr.1)))
    else
      match lookupCache s (toKey tenant) with
      | .error m => (s, .error m)
      | .ok c =>
        match getModelName env (xs.headD .vUndefined) with
        | .error m => (s, .error m)
        | .ok name =>
          let pr := normalizeList env db xs
          let s2 := setProp s (toKey tenant) (.cache (putSet c name pr.1))
          match pr.2 with
          | some m => (s2, .error m)
          | none => (s2, .ok (.payload (.vArr pr.1)))
  | r =>
    if cached then
      match getPlainObject env db r with
      | .error m => (s, .error m)
      | .ok p => (s, .ok (.payload p))
    else
      match lookupCache s (toKey tenant) with
      | .error m => (s, .error m)
      | .ok c =>
        match getModelName env r with
        | .error m => (s, .error m)
        | .ok name =>
          let s2 := setProp s (toKey tenant) (.cache (putSingle c name r))
          match getPlainObject env db r with
          | .error m => (s2, .error m)
          | .ok p => (s2, .ok (.payload p))

/-- The property chain
`socket[propA][propB][model][method](...params)` of the relational/cached
branch: landing on the relational reference resolves tenant, model and
method through the provider; landing on a tenant cache resolves the
`data`/`dataSets` member and then the cached record or set; landing on the
document reference reads undefined plain properties; any missing link
throws. -/
def propChain (env : Env) (s : SockState) (propA propB modelK methodK : String)
    (params : List JVal) : Except String CallResult :=
  match s.props propA with
  | none => .error "TypeError: Cannot read properties of undefined"
  | some .mySqlRef =>
    match env.mySql propB with
    | none => .error "TypeError: Cannot read properties of undefined"
    | some dbo =>
      match dbo modelK with
      | none => .error "TypeError: Cannot read properties of undefined"
      | some tbl =>
        match tbl methodK with
        | none => .error "TypeError: model method is not a function"
        | some f => .ok (f params)
  | some .mongoRef =>
    -- the document provider exposes its models through the model function,
    -- not as plain properties, so the plain chain reads undefined
    .error "TypeError: Cannot read properties of undefined"
  | some (.cache c) =>
    if propB = "data" then
      match c.data modelK with
      | none => .error "TypeError: Cannot read properties of undefined"
      | some r => .ok (invokeVal env r methodK params)
    else if propB = "dataSets" then
      match c.dataSets modelK with
      | none => .error "TypeError: Cannot read properties of undefined"
      | some arr => .ok (env.arrayMethod arr methodK params)
    else .error "TypeError: Cannot read properties of undefined"

/-- The chain `socket[db][tenant].model(model)[method](...params)` of the
document branch. A missing tenant connection makes the `.model` read throw;
an unregistered model name makes mongoose throw; a tenant cache sitting at
`socket.Mongo` has no connections, so the chain throws there too. -/
def mongoChain (env : Env) (s : SockState) (tenantK modelK methodK : String)
    (params : List JVal) : Except String CallResult :=
  match s.props "Mongo" with
  | some .mongoRef =>
    match env.mongoConn tenantK with
    | none => .error "TypeError: Cannot read properties of undefined reading model"
    | some modelFn =>
      match modelFn modelK with
      | none => .error "MissingSchemaError: Schema has not been registered"
      | some tbl =>
        match tbl methodK with
        | none => .error "TypeError: model method is not a function"
        | some f => .ok (f params)
  | some (.cache _) =>
    if tenantK = "data" ∨ tenantK = "dataSets" then
      .error "TypeError: model is not a function"
    else .error "TypeError: Cannot read properties of undefined reading model"
  | some .mySqlRef =>
    -- unreachable: the relational reference is only ever stored at key MySql
    .error "TypeError: Cannot read properties of undefined reading model"
  | none => .error "TypeError: Cannot read properties of undefined reading model"

/-- Error message of calling `.then` on a synchronously returned
non-promise in the document branch (the branch calls `.then`
unconditionally). -/
def mongoThenErr : JVal → String
  | .vNull => "TypeError: Cannot read properties of null reading then"
  | .vUndefined => "TypeError: Cannot read properties of undefined reading then"
  | _ => "TypeError: then is not a function"

/-- Routing of the document branch around
`...(...params).then(resolved.bind(this))`: a synchronous throw anywhere in
the chain is caught by the try and answered through `sendError`; a
synchronously returned non-promise throws at the `.then` read or call and
is likewise caught; a rejected promise has no handler attached and stays
unhandled; a throw inside the asynchronously called `resolved` is swallowed
by the promise. -/
def routeMongo (env : Env) (s1 : SockState) (db tenant : JVal) :
    Except String CallResult → HandleResult
  | .error m => ⟨s1, [.errMsg m], []⟩
  | .ok (.sync v) => ⟨s1, [.errMsg (mongoThenErr v)], []⟩
  | .ok (.throws m) => ⟨s1, [.errMsg m], []⟩
  | .ok (.promiseErr m) => ⟨s1, [], [m]⟩
  | .ok (.promiseOk v) =>
    match resolvedFn env db tenant s1 v with
    | (s2, .ok out) => ⟨s2, [out], []⟩
    | (s2, .error m) => ⟨s2, [], [m]⟩

/-- Routing of the relational/cached branch: a synchronous throw is caught
by the try; a synchronously returned value goes through the
`typeof promise === 'object' && promise.then` test and, when not a
thenable, through `resolved` still inside the try (so a throw there is
caught); a rejected promise has no handler attached and stays unhandled; a
throw inside the asynchronously called `resolved` is swallowed. -/
def routeDirect (env : Env) (s1 : SockState) (db tenant : JVal) :
    Except String CallResult → HandleResult
  | .error m => ⟨s1, [.errMsg m], []⟩
  | .ok (.throws m) => ⟨s1, [.errMsg m], []⟩
  | .ok (.promiseErr m) => ⟨s1, [], [m]⟩
  | .ok (.promiseOk v) =>
    match resolvedFn env db tenant s1 v with
    | (s2, .ok out) => ⟨s2, [out], []⟩
    | (s2, .error m) => ⟨s2, [], [m]⟩
  | .ok (.sync v) =>
    match isThenable v with
    | .error m => ⟨s1, [.errMsg m], []⟩
    | .ok true => ⟨s1, [.errMsg "TypeError: promise.then is not a function"], []⟩
    | .ok false =>
      match resolvedFn env db tenant s1 v with
      | (s2, .ok out) => ⟨s2, [out], []⟩
      | (s2, .error m) => ⟨s2, [.errMsg m], []⟩

/-- Dispatch after validation and cache initialization: evaluate the
invocation chain of the selected branch and route its outcome. -/
def dispatchReq (env : Env) (s1 : SockState) (db tenant : JVal)
    (modelK methodK : String) (params : List JVal) : HandleResult :=
  if db.isStr "Mongo" then
    routeMongo env s1 db tenant (mongoChain env s1 (toKey tenant) modelK methodK params)
  else
    let propA := if db.isStr "data" || db.isStr "dataSets" then toKey tenant else toKey db
    let propB := if db.isStr "data" || db.isStr "dataSets" then toKey db else toKey tenant
    routeDirect env s1 db tenant (propChain env s1 propA propB modelK methodK params)

/-- The body of the data handler on a successfully parsed, truthy message:
field extraction, params normalization, provider validation, cache
initialization for direct calls, then dispatch. -/
def handleParsed (env : Env) (s : SockState) (data : JVal) : HandleResult :=
  let db := getProp data "db"
  let tenant := getProp data "tenant"
  let modelK := toKey (getProp data "model")
  let methodK := toKey (getProp data "method")
  let params := match getProp data "params" with
    | .vArr xs => xs
    | v => [v]
  if !(db.isStr "data" || db.isStr "dataSets") then
    if !(db.isStr "MySql" || db.isStr "Mongo") then
      ⟨s, [.errMsg "Signature does not match."], []⟩
    else
      dispatchReq env (setProp s (toKey tenant) (.cache emptyCache)) db tenant modelK methodK params
  else
    dispatchReq env s db tenant modelK methodK params

/-- The data handler attached in the `ModelServer` constructor, applied to
one inbound chunk. -/
def handleData (env : Env) (s : SockState) (inb : Inbound) : HandleResult :=
  match inb with
  | .badJson m => ⟨s, [.errMsg m], []⟩
  | .parsed data =>
    if jsFalsy data then ⟨s, [.errMsg "Signature does not match."], []⟩
    else handleParsed env s data

/-- Sequentially handle a list of inbound chunks, collecting all written
messages and all unhandled rejections. -/
def runMsgs (env : Env) : SockState → List Inbound → SockState × List OutMsg × List String
  | s, [] => (s, [], [])
  | s, m :: ms =>
    let r := handleData env s m
    let rest := runMsgs env r.state ms
    (rest.1, r.out ++ rest.2.1, r.unhandled ++ rest.2.2)

/-- Sequentially handle a list of inbound chunks, keeping each chunk next
to the result of handling it. -/
def runTrace (env : Env) : SockState → List Inbound → List (Inbound × HandleResult)
  | _, [] => []
  | s, m :: ms =>
    let r := handleData env s m
    (m, r) :: runTrace env r.state ms

/-- A chunk that is a truthy parsed message selecting the relational
provider directly. -/
def isMySqlDirect : Inbound → Bool
  | .badJson _ => false
  | .parsed data => !(jsFalsy data) && (getProp data "db").isStr "MySql"

/-- A chunk that is a truthy parsed message selecting the document
provider directly. -/
def isMongoDirect : Inbound → Bool
  | .badJson _ => false
  | .parsed data => !(jsFalsy data) && (getProp data "db").isStr "Mongo"

/-- Read a tenant's cached single record, if the property at `t` is a
tenant cache holding one under `mn`. -/
def lookupSingleEntry (s : SockState) (t mn : String) : Option JVal :=
  match s.props t with
  | some (.cache c) => c.data mn
  | _ => none

/-- What the client socket reports after `_write` registered its handlers
and wrote: either an error event fires first, or the next inbound chunk
arrives (given here after the `JSON.parse` of the `.then` continuation). -/
inductive ClientEvt where
  | sockError (m : String)
  | dataEvt (payload : Inbound)

/-- Input to one client `_write`: whether `socket.write` returned true
(false signals backpressure) and the first socket event thereafter. -/
structure ClientIn where
  writeOk : Bool
  evt : ClientEvt

/-- Settlement of the pending result a client request returns. -/
inductive PResult where
  | resolvedWith (v : JVal)
  | rejectedWith (m : String)

/-- `ModelClient._write`: reject on backpressure immediately, reject on the
error event, otherwise resolve with the next data event parsed as JSON (a
parse failure in the continuation rejects). The early rejection of an
`Error` produced by `mergeOptions` is upstream of this and not needed
here. -/
def clientWrite (input : ClientIn) : PResult :=
  if !input.writeOk then .rejectedWith "Waiting for drain event."
  else
    match input.evt with
    | .sockError m => .rejectedWith m
    | .dataEvt (.badJson m) => .rejectedWith m
    | .dataEvt (.parsed v) => .resolvedWith v

/-!
Demonstration environment used by witnesses and counterexamples: a
relational tenant `t1` whose model `Student` has one method per
`CallResult` shape, records that are `Student` instances with a
`getParents` instance method, no document tenants, and unmodelled array
built-ins.
-/

/-- Record behaviour of the demonstration environment. -/
def recDemo : RecInfo where
  prov := .mySqlModel "Student"
  hasGet := true
  plainGet := .vPlain [("id", .vNum 5)]
  hasToJSON := false
  plainToJSON := .vUndefined
  methods := fun k =>
    if k = "getParents" then some (fun _ => .promiseOk (.vArr [.vStr "parent"]))
    else if k = "asyncNothing" then some (fun _ => .promiseOk .vUndefined)
    else none

/-- Method table of the demonstration model `Student`. -/
def studentTbl : String → Option (List JVal → CallResult) := fun m =>
  if m = "findById" then some (fun _ => .promiseOk (.vRec 0))
  else if m = "findSync" then some (fun _ => .sync (.vRec 0))
  else if m = "findAll" then some (fun _ => .promiseOk (.vArr [.vRec 0, .vRec 1]))
  else if m = "boom" then some (fun _ => .throws "kaboom")
  else if m = "reject" then some (fun _ => .promiseErr "boom")
  else if m = "syncUndefined" then some (fun _ => .sync .vUndefined)
  else if m = "asyncUndefinedined" then some (fun _ => .promiseOk .vUndefined)
  else none

/-- Tenant map of the demonstration relational provider. -/
def t1Db : String → Option (String → Option (List JVal → CallResult)) := fun M =>
  if M = "Student" then some studentTbl else none

/-- Behaviour of the demonstration document record (a mongoose Parent
instance, record id 2). -/
def recMongoDemo : RecInfo where
  prov := .mongoModel "Parent"
  hasGet := false
  plainGet := .vUndefined
  hasToJSON := true
  plainToJSON := .vPlain [("name", .vStr "pat")]
  methods := fun k =>
    if k = "getKids" then some (fun _ => .promiseOk (.vArr [])) else none

/-- Method table of the demonstration document model `Parent`. -/
def parentTbl : String → Option (List JVal → CallResult) := fun m =>
  if m = "findOne" then some (fun _ => .promiseOk (.vRec 2)) else none

/-- The document tenant `t2` of the demonstration environment (its
`.model` resolver). -/
def t2Conn : String → Option (String → Option (List JVal → CallResult)) := fun M =>
  if M = "Parent" then some parentTbl else none

/-- The demonstration environment. -/
def envDemo : Env where
  recs := fun n => if n = 2 then recMongoDemo else recDemo
  mySql := fun t => if t = "t1" then some t1Db else none
  mongoConn := fun t => if t = "t2" then some t2Conn else none
  arrayMethod := fun _ _ _ => .throws "TypeError: array built-ins are outside the model"

/-- Build a parsed request message. -/
def mkReq (db t M m : String) (ps : List JVal) : Inbound :=
  .parsed (.vPlain [("db", .vStr db), ("tenant", .vStr t), ("model", .vStr M),
                    ("method", .vStr m), ("params", .vArr ps)])

/-!
Basic state lemmas.
-/

theorem setProp_props_same (s : SockState) (k : String) (p : SockProp) :
    (setProp s k p).props k = some p := by
  simp [setProp]

theorem setProp_props_other (s : SockState) (k x : String) (p : SockProp) (h : x ≠ k) :
    (setProp s k p).props x = s.props x := by
  simp [setProp, h]

theorem setProp_collapse (s : SockState) (k : String) (p q : SockProp) :
    setProp (setProp s k p) k q = setProp s k q := by
  ext x
  · by_cases hx : x = k <;> simp [setProp, hx]
  · rfl

theorem setProp_destroyed (s : SockState) (k : String) (p : SockProp) :
    (setProp s k p).destroyed = s.destroyed := rfl

theorem resolvedFn_destroyed (env : Env) (db tenant : JVal) (s : SockState) (r : JVal) :
    (resolvedFn env db tenant s r).1.destroyed = s.destroyed := by
  unfold resolvedFn
  simp only
  repeat' split
  all_goals rfl

theorem routeMongo_destroyed (env : Env) (s1 : SockState) (db tenant : JVal)
    (r : Except String CallResult) :
    (routeMongo env s1 db tenant r).state.destroyed = s1.destroyed := by
  unfold routeMongo
  repeat' split
  all_goals first
    | rfl
    | (rename_i heq
       exact (congrArg (fun p => p.1.destroyed) heq).symm.trans (resolvedFn_destroyed ..))

theorem routeDirect_destroyed (env : Env) (s1 : SockState) (db tenant : JVal)
    (r : Except String CallResult) :
    (routeDirect env s1 db tenant r).state.destroyed = s1.destroyed := by
  unfold routeDirect
  repeat' split
  all_goals first
    | rfl
    | (rename_i heq
       exact (congrArg (fun p => p.1.destroyed) heq).symm.trans (resolvedFn_destroyed ..))

theorem dispatchReq_destroyed (env : Env) (s1 : SockState) (db tenant : JVal)
    (modelK methodK : String) (params : List JVal) :
    (dispatchReq env s1 db tenant modelK methodK params).state.destroyed = s1.destroyed := by
  unfold dispatchReq
  split
  · exact routeMongo_destroyed ..
  · exact routeDirect_destroyed ..

theorem handleData_destroyed (env : Env) (s : SockState) (inb : Inbound) :
    (handleData env s inb).state.destroyed = s.destroyed := by
  cases inb with
  | badJson m => rfl
  | parsed data =>
    unfold handleData handleParsed
    simp only
    repeat' split
    all_goals first
      | rfl
      | (rw [dispatchReq_destroyed]; try rfl)

/-!
Claim theorems.
-/

/-- C2: the claim states that a provider method whose asynchronous result
rejects yields an error response carrying the failure message, the
connection stays open, and the rejection never escapes uncaught. The code
attaches only the success handler (`promise.then(resolved.bind(this))`,
with no rejection handler), so evaluating the handler at a rejecting
provider method shows the actual behaviour: no response at all is written,
and the rejection escapes unhandled. The connection does stay open. -/
theorem async_rejection_escapes_unhandled :
    (handleData envDemo initSock (mkReq "MySql" "t1" "Student" "reject" [])).out = [] ∧
    (handleData envDemo initSock (mkReq "MySql" "t1" "Student" "reject" [])).unhandled = ["boom"] ∧
    (handleData envDemo initSock (mkReq "MySql" "t1" "Student" "reject" [])).state.destroyed = false :=
  ⟨rfl, rfl, rfl⟩

/-- C5 counterexample: a message with provider `MySql` but no `tenant`
field is, per the claim, supposed to be rejected before dispatch with the
signature-mismatch error. Instead the handler dispatches it: the tenant
cache keyed by the string undefined is created (the state changes), the
provider chain is evaluated and the resulting error response carries the
TypeError message of the failed chain, not the signature message. -/
theorem missing_tenant_reaches_dispatch :
    (handleData envDemo initSock (.parsed (.vPlain
        [("db", .vStr "MySql"), ("model", .vStr "Student"), ("method", .vStr "findById")]))).out
      = [.errMsg "TypeError: Cannot read properties of undefined"] ∧
    "TypeError: Cannot read properties of undefined" ≠ "Signature does not match." ∧
    (handleData envDemo initSock (.parsed (.vPlain
        [("db", .vStr "MySql"), ("model", .vStr "Student"), ("method", .vStr "findById")]))).state.props "undefined"
      = some (.cache emptyCache) :=
  ⟨rfl, by decide, rfl⟩

/-- State after a successful direct relational call that cached a
`Student` record for tenant `t1` (used to exhibit cache loss on a later
failing call). -/
def s1AfterFind : SockState :=
  (handleData envDemo initSock (mkReq "MySql" "t1" "Student" "findById" [.vNum 5])).state

/-- C4 counterexample: the claim states that on a failing invocation the
cache is exactly what it was before the request. Starting from a state
whose tenant `t1` caches the record `student`, a direct call whose method
throws synchronously produces the error response but leaves the tenant
cache freshly emptied (the dispatch wiped it before invoking), so the
previously cached entry is gone. -/
theorem failing_call_wipes_cache :
    lookupSingleEntry s1AfterFind "t1" "student" = some (.vRec 0) ∧
    (handleData envDemo s1AfterFind (mkReq "MySql" "t1" "Student" "boom" [])).out
      = [.errMsg "kaboom"] ∧
    lookupSingleEntry
        (handleData envDemo s1AfterFind (mkReq "MySql" "t1" "Student" "boom" [])).state
        "t1" "student" = none :=
  ⟨rfl, rfl, rfl⟩

/-- C7 counterexample: the claim states that an invocation resolving to
undefined yields one response with payload null. For a direct relational
call returning undefined synchronously, `resolved` converts it to null and
then `_getModelName(null)` reads `.Model` on null and throws, so the one
response is an error message, not the null payload. -/
theorem direct_undefined_yields_error_not_null :
    (handleData envDemo initSock (mkReq "MySql" "t1" "Student" "syncUndefined" [])).out
      = [.errMsg "TypeError: Cannot read properties of null reading Model"] ∧
    ([OutMsg.errMsg "TypeError: Cannot read properties of null reading Model"]
      ≠ [OutMsg.payload .vNull]) :=
  ⟨rfl, by simp⟩

/-- C8 counterexample: the claim states that a response payload of the
form `{error: message}` makes the client's pending result fail with that
message. `_write` resolves with the parsed payload unconditionally, so an
error payload resolves successfully to the parsed object instead of
rejecting. -/
theorem error_payload_resolves_not_rejects :
    clientWrite ⟨true, .dataEvt (.parsed (.vPlain [("error", .vStr "boom")]))⟩
      = .resolvedWith (.vPlain [("error", .vStr "boom")]) ∧
    PResult.resolvedWith (.vPlain [("error", .vStr "boom")]) ≠ .rejectedWith "boom" :=
  ⟨rfl, fun h => PResult.noConfusion h⟩

/-- C8 amended: the pending result completes with the JSON-parsed payload
of the next inbound message on the connection, whatever its shape — an
error payload included, which resolves successfully as the parsed object;
the pending result fails only on a transport error event, an unparsable
payload, or an immediate backpressure signal from the write. -/
theorem client_write_resolution :
    (∀ v : JVal, clientWrite ⟨true, .dataEvt (.parsed v)⟩ = .resolvedWith v) ∧
    (∀ m : String, clientWrite ⟨true, .sockError m⟩ = .rejectedWith m) ∧
    (∀ m : String, clientWrite ⟨true, .dataEvt (.badJson m)⟩ = .rejectedWith m) ∧
    (∀ e : ClientEvt, clientWrite ⟨false, e⟩ = .rejectedWith "Waiting for drain event.") :=
  ⟨fun _ => rfl, fun _ => rfl, fun _ => rfl, fun _ => rfl⟩

/-!
Reduction lemmas: the data handler on the four request shapes.
-/

theorem handleData_mysql_eq (env : Env) (s : SockState) (t M m : String) (ps : List JVal) :
    handleData env s (mkReq "MySql" t M m ps) =
      routeDirect env (setProp s t (.cache emptyCache)) (.vStr "MySql") (.vStr t)
        (propChain env (setProp s t (.cache emptyCache)) "MySql" t M m ps) := rfl

theorem handleData_mongo_eq (env : Env) (s : SockState) (t M m : String) (ps : List JVal) :
    handleData env s (mkReq "Mongo" t M m ps) =
      routeMongo env (setProp s t (.cache emptyCache)) (.vStr "Mongo") (.vStr t)
        (mongoChain env (setProp s t (.cache emptyCache)) t M m ps) := rfl

theorem handleData_data_eq (env : Env) (s : SockState) (t M m : String) (ps : List JVal) :
    handleData env s (mkReq "data" t M m ps) =
      routeDirect env s (.vStr "data") (.vStr t) (propChain env s t "data" M m ps) := rfl

theorem handleData_dataSets_eq (env : Env) (s : SockState) (t M m : String) (ps : List JVal) :
    handleData env s (mkReq "dataSets" t M m ps) =
      routeDirect env s (.vStr "dataSets") (.vStr t) (propChain env s t "dataSets" M m ps) := rfl

/-- C6: a CachedRecord or CachedRecordSet request naming a tenant and model
for which no prior direct-provider call on this connection stored an entry
yields an error response with a descriptive message; the state (so in
particular the open connection and the cache) is untouched and the handler
returns normally rather than crashing. -/
theorem cache_miss_error_response (env : Env) (s : SockState) (dbs t M m : String)
    (ps : List JVal)
    (hdb : dbs = "data" ∨ dbs = "dataSets")
    (hmiss : s.props t = none ∨
      ∃ c, s.props t = some (.cache c) ∧
        (dbs = "data" → c.data M = none) ∧ (dbs = "dataSets" → c.dataSets M = none)) :
    ∃ msg, handleData env s (mkReq dbs t M m ps) = ⟨s, [.errMsg msg], []⟩ := by
  refine ⟨"TypeError: Cannot read properties of undefined", ?_⟩
  rcases hdb with rfl | rfl
  · rw [handleData_data_eq]
    rcases hmiss with hnone | ⟨c, hc, hm, _⟩
    · have hch : propChain env s t "data" M m ps
          = .error "TypeError: Cannot read properties of undefined" := by
        unfold propChain
        rw [hnone]
      rw [hch]
      rfl
    · have hch : propChain env s t "data" M m ps
          = .error "TypeError: Cannot read properties of undefined" := by
        unfold propChain
        rw [hc]
        simp [hm rfl]
      rw [hch]
      rfl
  · rw [handleData_dataSets_eq]
    rcases hmiss with hnone | ⟨c, hc, _, hm⟩
    · have hch : propChain env s t "dataSets" M m ps
          = .error "TypeError: Cannot read properties of undefined" := by
        unfold propChain
        rw [hnone]
      rw [hch]
      rfl
    · have hch : propChain env s t "dataSets" M m ps
          = .error "TypeError: Cannot read properties of undefined" := by
        unfold propChain
        rw [hc]
        simp [hm rfl]
      rw [hch]
      rfl

/-- C6 witness: a CachedRecord request for a tenant never seen on the
fresh connection errors and changes nothing. -/
theorem cache_miss_error_response_witness :
    ∃ msg, handleData envDemo initSock (mkReq "data" "t9" "student" "getParents" []) =
      ⟨initSock, [.errMsg msg], []⟩ :=
  cache_miss_error_response envDemo initSock "data" "t9" "student" "getParents" []
    (Or.inl rfl) (Or.inl rfl)
/-!
Cache and resolution helper lemmas.
-/

theorem lookupCache_setProp_cache (s : SockState) (k : String) (c : TenantCache) :
    lookupCache (setProp s k (.cache c)) k = .ok c := by
  simp [lookupCache, setProp]

theorem putSingle_data_same (c : TenantCache) (k : String) (v : JVal) :
    (putSingle c k v).data k = some v := by
  simp [putSingle]

theorem putSet_dataSets_same (c : TenantCache) (k : String) (vs : List JVal) :
    (putSet c k vs).dataSets k = some vs := by
  simp [putSet]

/-- Normalization under a cached-call type is the identity: neither the
`get` nor the `toJSON` extraction applies. -/
theorem getPlainObject_passthrough (env : Env) (ty : JVal) (r : JVal)
    (h1 : ty.isStr "MySql" = false) (h2 : ty.isStr "Mongo" = false) :
    getPlainObject env ty r = .ok r := by
  unfold getPlainObject
  rw [h1, h2]
  rfl

theorem normalizeList_passthrough (env : Env) (ty : JVal) (xs : List JVal)
    (h1 : ty.isStr "MySql" = false) (h2 : ty.isStr "Mongo" = false) :
    normalizeList env ty xs = (xs, none) := by
  induction xs with
  | nil => rfl
  | cons x xs ih =>
    unfold normalizeList
    rw [getPlainObject_passthrough env ty x h1 h2, ih]

/-- `resolved` on a cached call passes any non-undefined value through
unchanged and leaves the state alone. -/
theorem resolvedFn_data_passthrough (env : Env) (tenant : JVal) (s : SockState) (v : JVal)
    (hv : v ≠ .vUndefined) :
    resolvedFn env (.vStr "data") tenant s v = (s, .ok (.payload v)) := by
  cases v with
  | vUndefined => exact absurd rfl hv
  | vArr xs =>
    show (let pr := normalizeList env (.vStr "data") xs
          match pr.2 with
          | some m => (s, Except.error m)
          | none => (s, Except.ok (OutMsg.payload (JVal.vArr pr.1)))) = _
    rw [normalizeList_passthrough env (.vStr "data") xs rfl rfl]
  | vNull => rfl
  | vBool b => rfl
  | vNum n => rfl
  | vStr str => rfl
  | vPlain fs => rfl
  | vRec id => rfl

/-- `resolved` on a direct relational call with a non-array record: the
tenant cache gains the record itself (in instance form) under the derived
name, and the response carries the extracted plain form. -/
theorem resolvedFn_mysql_single (env : Env) (t : String) (s : SockState) (c : TenantCache)
    (r : JVal) (name : String) (p : JVal)
    (harr : ∀ xs, r ≠ .vArr xs) (hu : r ≠ .vUndefined)
    (hc : lookupCache s t = .ok c)
    (hn : getModelName env r = .ok name)
    (hp : getPlainObject env (.vStr "MySql") r = .ok p) :
    resolvedFn env (.vStr "MySql") (.vStr t) s r =
      (setProp s t (.cache (putSingle c name r)), .ok (.payload p)) := by
  cases r with
  | vUndefined => exact absurd rfl hu
  | vArr xs => exact absurd rfl (harr xs)
  | vNull => simp [resolvedFn, hc, hn, hp, JVal.isStr, toKey]
  | vBool b => simp [resolvedFn, hc, hn, hp, JVal.isStr, toKey]
  | vNum n => simp [resolvedFn, hc, hn, hp, JVal.isStr, toKey]
  | vStr str => simp [resolvedFn, hc, hn, hp, JVal.isStr, toKey]
  | vPlain fs => simp [resolvedFn, hc, hn, hp, JVal.isStr, toKey]
  | vRec id => simp [resolvedFn, hc, hn, hp, JVal.isStr, toKey]

/-- `resolved` on a direct relational call with an array: the tenant cache
gains the array under the derived name of its first element, and — because
the element-wise normalization replaces the elements of the very array
object that was stored — the cached set and the response both hold the
normalized elements. -/
theorem resolvedFn_mysql_array (env : Env) (t : String) (s : SockState) (c : TenantCache)
    (xs ys : List JVal) (name : String)
    (hc : lookupCache s t = .ok c)
    (hn : getModelName env (xs.headD .vUndefined) = .ok name)
    (hnorm : normalizeList env (.vStr "MySql") xs = (ys, none)) :
    resolvedFn env (.vStr "MySql") (.vStr t) s (.vArr xs) =
      (setProp s t (.cache (putSet c name ys)), .ok (.payload (.vArr ys))) := by
  rw [List.headD_eq_head?] at hn
  simp [resolvedFn, hc, hn, hnorm, JVal.isStr, toKey]

/-!
Routing lemmas: outcome of the dispatch under a known chain result.
-/

theorem routeDirect_promiseOk_ok (env : Env) (s1 : SockState) (db tenant v : JVal)
    (s2 : SockState) (out : OutMsg)
    (h : resolvedFn env db tenant s1 v = (s2, .ok out)) :
    routeDirect env s1 db tenant (.ok (.promiseOk v)) = ⟨s2, [out], []⟩ := by
  simp only [routeDirect, h]

theorem routeDirect_promiseOk_err (env : Env) (s1 : SockState) (db tenant v : JVal)
    (s2 : SockState) (m : String)
    (h : resolvedFn env db tenant s1 v = (s2, .error m)) :
    routeDirect env s1 db tenant (.ok (.promiseOk v)) = ⟨s2, [], [m]⟩ := by
  simp only [routeDirect, h]

theorem routeDirect_sync_ok (env : Env) (s1 : SockState) (db tenant v : JVal)
    (s2 : SockState) (out : OutMsg)
    (hth : isThenable v = .ok false)
    (h : resolvedFn env db tenant s1 v = (s2, .ok out)) :
    routeDirect env s1 db tenant (.ok (.sync v)) = ⟨s2, [out], []⟩ := by
  simp only [routeDirect, hth, h]

theorem routeDirect_sync_err (env : Env) (s1 : SockState) (db tenant v : JVal)
    (s2 : SockState) (m : String)
    (hth : isThenable v = .ok false)
    (h : resolvedFn env db tenant s1 v = (s2, .error m)) :
    routeDirect env s1 db tenant (.ok (.sync v)) = ⟨s2, [.errMsg m], []⟩ := by
  simp only [routeDirect, hth, h]

/-- Chain resolution of a direct relational call through the attached
provider reference. -/
theorem propChain_mysql_ok (env : Env) (s1 : SockState) (t M m : String) (ps : List JVal)
    (dbo : String → Option (String → Option (List JVal → CallResult)))
    (tbl : String → Option (List JVal → CallResult)) (f : List JVal → CallResult)
    (hms : s1.props "MySql" = some .mySqlRef)
    (h1 : env.mySql t = some dbo) (h2 : dbo M = some tbl) (h3 : tbl m = some f) :
    propChain env s1 "MySql" t M m ps = .ok (f ps) := by
  unfold propChain
  rw [hms]
  simp [h1, h2, h3]

/-- Derived model name of a relational record with a nonempty model name. -/
theorem getModelName_mysql (env : Env) (id : Nat) (N : String) (c0 : Char) (cs : List Char)
    (h5 : (env.recs id).prov = .mySqlModel N) (h6 : N.data = c0 :: cs) :
    getModelName env (.vRec id) = .ok (String.mk (c0.toLower :: cs)) := by
  simp only [getModelName, h5, h6]

/-- Full result of a direct relational request whose method returns a
single record, synchronously or as a fulfilled promise: validation passes,
the tenant cache is wiped, the chain resolves, `resolved` stores the record
under the derived name and the response carries the extracted plain form. -/
theorem handleData_mysql_single_ok (env : Env) (s : SockState) (t M m : String)
    (ps : List JVal)
    (dbo : String → Option (String → Option (List JVal → CallResult)))
    (tbl : String → Option (List JVal → CallResult)) (f : List JVal → CallResult)
    (id : Nat) (N : String) (c0 : Char) (cs : List Char) (p : JVal)
    (ht : t ≠ "MySql")
    (hms : s.props "MySql" = some .mySqlRef)
    (h1 : env.mySql t = some dbo) (h2 : dbo M = some tbl) (h3 : tbl m = some f)
    (h4 : f ps = .promiseOk (.vRec id) ∨ f ps = .sync (.vRec id))
    (h5 : (env.recs id).prov = .mySqlModel N)
    (h6 : N.data = c0 :: cs)
    (hp : getPlainObject env (.vStr "MySql") (.vRec id) = .ok p) :
    handleData env s (mkReq "MySql" t M m ps) =
      ⟨setProp (setProp s t (.cache emptyCache)) t
         (.cache (putSingle emptyCache (String.mk (c0.toLower :: cs)) (.vRec id))),
       [.payload p], []⟩ := by
  rw [handleData_mysql_eq]
  have hms1 : (setProp s t (.cache emptyCache)).props "MySql" = some .mySqlRef := by
    rw [setProp_props_other _ _ _ _ (Ne.symm ht)]
    exact hms
  rw [propChain_mysql_ok env _ t M m ps dbo tbl f hms1 h1 h2 h3]
  have hres := resolvedFn_mysql_single env t (setProp s t (.cache emptyCache)) emptyCache
    (.vRec id) (String.mk (c0.toLower :: cs)) p
    (fun _ h => JVal.noConfusion h) (fun h => JVal.noConfusion h)
    (lookupCache_setProp_cache ..) (getModelName_mysql env id N c0 cs h5 h6) hp
  rcases h4 with h4 | h4
  · rw [h4]
    exact routeDirect_promiseOk_ok env _ _ _ _ _ _ hres
  · rw [h4]
    exact routeDirect_sync_ok env _ _ _ _ _ _ rfl hres

/-!
Document-branch counterparts.
-/

theorem routeMongo_promiseOk_ok (env : Env) (s1 : SockState) (db tenant v : JVal)
    (s2 : SockState) (out : OutMsg)
    (h : resolvedFn env db tenant s1 v = (s2, .ok out)) :
    routeMongo env s1 db tenant (.ok (.promiseOk v)) = ⟨s2, [out], []⟩ := by
  simp only [routeMongo, h]

theorem routeMongo_promiseOk_err (env : Env) (s1 : SockState) (db tenant v : JVal)
    (s2 : SockState) (m : String)
    (h : resolvedFn env db tenant s1 v = (s2, .error m)) :
    routeMongo env s1 db tenant (.ok (.promiseOk v)) = ⟨s2, [], [m]⟩ := by
  simp only [routeMongo, h]

/-- Chain resolution of a direct document call through the attached
provider reference. -/
theorem mongoChain_ok (env : Env) (s1 : SockState) (t M m : String) (ps : List JVal)
    (modelFn : String → Option (String → Option (List JVal → CallResult)))
    (tbl : String → Option (List JVal → CallResult)) (f : List JVal → CallResult)
    (hmg : s1.props "Mongo" = some .mongoRef)
    (h1 : env.mongoConn t = some modelFn) (h2 : modelFn M = some tbl) (h3 : tbl m = some f) :
    mongoChain env s1 t M m ps = .ok (f ps) := by
  unfold mongoChain
  rw [hmg]
  simp [h1, h2, h3]

/-- Derived model name of a document record with a nonempty model name. -/
theorem getModelName_mongo (env : Env) (id : Nat) (N : String) (c0 : Char) (cs : List Char)
    (h5 : (env.recs id).prov = .mongoModel N) (h6 : N.data = c0 :: cs) :
    getModelName env (.vRec id) = .ok (String.mk (c0.toLower :: cs)) := by
  simp only [getModelName, h5, h6]

/-- `resolved` on a direct document call with a non-array record: the
tenant cache gains the record itself (in instance form) under the derived
name, and the response carries the projected plain form. -/
theorem resolvedFn_mongo_single (env : Env) (t : String) (s : SockState) (c : TenantCache)
    (r : JVal) (name : String) (p : JVal)
    (harr : ∀ xs, r ≠ .vArr xs) (hu : r ≠ .vUndefined)
    (hc : lookupCache s t = .ok c)
    (hn : getModelName env r = .ok name)
    (hp : getPlainObject env (.vStr "Mongo") r = .ok p) :
    resolvedFn env (.vStr "Mongo") (.vStr t) s r =
      (setProp s t (.cache (putSingle c name r)), .ok (.payload p)) := by
  cases r with
  | vUndefined => exact absurd rfl hu
  | vArr xs => exact absurd rfl (harr xs)
  | vNull => simp [resolvedFn, hc, hn, hp, JVal.isStr, toKey]
  | vBool b => simp [resolvedFn, hc, hn, hp, JVal.isStr, toKey]
  | vNum n => simp [resolvedFn, hc, hn, hp, JVal.isStr, toKey]
  | vStr str => simp [resolvedFn, hc, hn, hp, JVal.isStr, toKey]
  | vPlain fs => simp [resolvedFn, hc, hn, hp, JVal.isStr, toKey]
  | vRec id => simp [resolvedFn, hc, hn, hp, JVal.isStr, toKey]

/-- `resolved` on a direct document call with an array: the stored set and
the response both hold the normalized elements, by the same in-place
element replacement as on the relational side. -/
theorem resolvedFn_mongo_array (env : Env) (t : String) (s : SockState) (c : TenantCache)
    (xs ys : List JVal) (name : String)
    (hc : lookupCache s t = .ok c)
    (hn : getModelName env (xs.headD .vUndefined) = .ok name)
    (hnorm : normalizeList env (.vStr "Mongo") xs = (ys, none)) :
    resolvedFn env (.vStr "Mongo") (.vStr t) s (.vArr xs) =
      (setProp s t (.cache (putSet c name ys)), .ok (.payload (.vArr ys))) := by
  rw [List.headD_eq_head?] at hn
  simp [resolvedFn, hc, hn, hnorm, JVal.isStr, toKey]

/-- `resolved` on a direct document call that resolved to undefined: as on
the relational side, the undefined-to-null conversion makes `_getModelName`
read `.Model` on null and throw before anything is stored. -/
theorem resolvedFn_mongo_undefined (env : Env) (t : String) (s : SockState) :
    resolvedFn env (.vStr "Mongo") (.vStr t) (setProp s t (.cache emptyCache)) .vUndefined
      = (setProp s t (.cache emptyCache),
         .error "TypeError: Cannot read properties of null reading Model") := by
  simp [resolvedFn, lookupCache_setProp_cache, JVal.isStr, toKey, getModelName]

/-- Full result of a direct document request whose method returns a single
record through a fulfilled promise (the document branch calls `.then`
unconditionally, so only promise results can succeed there): validation
passes, the tenant cache is wiped, the chain resolves, `resolved` stores
the record under the derived name and the response carries the projected
plain form. -/
theorem handleData_mongo_single_ok (env : Env) (s : SockState) (t M m : String)
    (ps : List JVal)
    (modelFn : String → Option (String → Option (List JVal → CallResult)))
    (tbl : String → Option (List JVal → CallResult)) (f : List JVal → CallResult)
    (id : Nat) (N : String) (c0 : Char) (cs : List Char) (p : JVal)
    (ht : t ≠ "Mongo")
    (hmg : s.props "Mongo" = some .mongoRef)
    (h1 : env.mongoConn t = some modelFn) (h2 : modelFn M = some tbl) (h3 : tbl m = some f)
    (h4 : f ps = .promiseOk (.vRec id))
    (h5 : (env.recs id).prov = .mongoModel N)
    (h6 : N.data = c0 :: cs)
    (hp : getPlainObject env (.vStr "Mongo") (.vRec id) = .ok p) :
    handleData env s (mkReq "Mongo" t M m ps) =
      ⟨setProp (setProp s t (.cache emptyCache)) t
         (.cache (putSingle emptyCache (String.mk (c0.toLower :: cs)) (.vRec id))),
       [.payload p], []⟩ := by
  rw [handleData_mongo_eq]
  have hmg1 : (setProp s t (.cache emptyCache)).props "Mongo" = some .mongoRef := by
    rw [setProp_props_other _ _ _ _ (Ne.symm ht)]
    exact hmg
  rw [mongoChain_ok env _ t M m ps modelFn tbl f hmg1 h1 h2 h3, h4]
  exact routeMongo_promiseOk_ok env _ _ _ _ _ _
    (resolvedFn_mongo_single env t (setProp s t (.cache emptyCache)) emptyCache
      (.vRec id) (String.mk (c0.toLower :: cs)) p
      (fun _ h => JVal.noConfusion h) (fun h => JVal.noConfusion h)
      (lookupCache_setProp_cache ..) (getModelName_mongo env id N c0 cs h5 h6) hp)

/-- A CachedRecord request whose target record is cached under the given
tenant and name, and whose method exists and succeeds (as a promise or as
a synchronous non-thenable), answers with the method's result and leaves
the state unchanged. -/
theorem handleData_cached_method_ok (env : Env) (t n m2 : String) (p2 : List JVal)
    (s : SockState) (c : TenantCache) (id : Nat) (g : List JVal → CallResult) (v : JVal)
    (hst : s.props t = some (.cache c))
    (hcd : c.data n = some (.vRec id))
    (h7 : (env.recs id).methods m2 = some g)
    (h8 : g p2 = .promiseOk v ∨ (g p2 = .sync v ∧ isThenable v = .ok false))
    (hv : v ≠ .vUndefined) :
    handleData env s (mkReq "data" t n m2 p2) = ⟨s, [.payload v], []⟩ := by
  have hch : propChain env s t "data" n m2 p2 = .ok (g p2) := by
    simp only [propChain, hst, hcd, invokeVal, h7]
    simp
  rw [handleData_data_eq, hch]
  rcases h8 with h8 | ⟨h8, hth⟩
  · rw [h8]
    exact routeDirect_promiseOk_ok env _ _ _ _ _ _
      (resolvedFn_data_passthrough env (.vStr t) _ v hv)
  · rw [h8]
    exact routeDirect_sync_ok env _ _ _ _ _ _ hth
      (resolvedFn_data_passthrough env (.vStr t) _ v hv)

/-- C3: a direct-provider request resets the named tenant's entire cache
(both maps) to empty before storing anything: the result of the request
does not depend on whatever was previously stored at that tenant key
(cache entries are overwritten wholesale, never merged), and on a
successful single-record call the tenant's cache afterwards holds exactly
the one freshly stored record in an otherwise empty cache. -/
theorem direct_call_wipes_tenant_cache :
    (∀ (env : Env) (s : SockState) (p : SockProp) (dbs t M m : String) (ps : List JVal),
       dbs = "MySql" ∨ dbs = "Mongo" →
       handleData env (setProp s t p) (mkReq dbs t M m ps)
         = handleData env s (mkReq dbs t M m ps)) ∧
    (∀ (env : Env) (s : SockState) (t M m : String) (ps : List JVal)
       (dbo : String → Option (String → Option (List JVal → CallResult)))
       (tbl : String → Option (List JVal → CallResult)) (f : List JVal → CallResult)
       (id : Nat) (N : String) (c0 : Char) (cs : List Char) (p : JVal),
       t ≠ "MySql" → s.props "MySql" = some .mySqlRef →
       env.mySql t = some dbo → dbo M = some tbl → tbl m = some f →
       f ps = .promiseOk (.vRec id) ∨ f ps = .sync (.vRec id) →
       (env.recs id).prov = .mySqlModel N → N.data = c0 :: cs →
       getPlainObject env (.vStr "MySql") (.vRec id) = .ok p →
       (handleData env s (mkReq "MySql" t M m ps)).state.props t
         = some (.cache (putSingle emptyCache (String.mk (c0.toLower :: cs)) (.vRec id)))) := by
  constructor
  · intro env s p dbs t M m ps hdb
    rcases hdb with rfl | rfl
    · rw [handleData_mysql_eq, handleData_mysql_eq, setProp_collapse]
    · rw [handleData_mongo_eq, handleData_mongo_eq, setProp_collapse]
  · intro env s t M m ps dbo tbl f id N c0 cs p ht hms h1 h2 h3 h4 h5 h6 hp
    rw [handleData_mysql_single_ok env s t M m ps dbo tbl f id N c0 cs p
          ht hms h1 h2 h3 h4 h5 h6 hp]
    exact setProp_props_same ..

/-- C3 witness: at the demonstration environment, a stale entry under
tenant t1 does not influence the request, and the successful call leaves
exactly the fresh record cached. -/
theorem direct_call_wipes_tenant_cache_witness :
    handleData envDemo (setProp initSock "t1" (.cache (putSingle emptyCache "raw" (.vNum 3))))
        (mkReq "MySql" "t1" "Student" "findById" [.vNum 5])
      = handleData envDemo initSock (mkReq "MySql" "t1" "Student" "findById" [.vNum 5]) ∧
    (handleData envDemo initSock (mkReq "MySql" "t1" "Student" "findById" [.vNum 5])).state.props "t1"
      = some (.cache (putSingle emptyCache "student" (.vRec 0))) :=
  ⟨direct_call_wipes_tenant_cache.1 envDemo initSock
      (.cache (putSingle emptyCache "raw" (.vNum 3))) "MySql" "t1" "Student" "findById"
      [.vNum 5] (Or.inl rfl),
   direct_call_wipes_tenant_cache.2 envDemo initSock "t1" "Student" "findById" [.vNum 5]
      t1Db studentTbl (fun _ => .promiseOk (.vRec 0)) 0 "Student" 'S' "tudent".data
      (.vPlain [("id", .vNum 5)]) (by decide) rfl rfl rfl rfl (Or.inl rfl) rfl (by decide) rfl⟩

/-- C1: a well-formed direct request against either provider (Relational
or Document) whose invocation succeeds with a single record, followed on
the same connection by a same-tenant CachedRecord request for the derived
model name and an existing instance method of the cached record, succeeds:
the first response is the record's plain form and the second response is
the instance method's result. (On the relational side the record may come
back synchronously or as a promise; the document branch calls `.then`
unconditionally, so there only a promise can succeed.) -/
theorem direct_then_cached_roundtrip :
    (∀ (env : Env) (t M m m2 : String) (ps p2 : List JVal)
       (dbo : String → Option (String → Option (List JVal → CallResult)))
       (tbl : String → Option (List JVal → CallResult)) (f g : List JVal → CallResult)
       (id : Nat) (N : String) (c0 : Char) (cs : List Char) (p v : JVal),
       t ≠ "MySql" →
       env.mySql t = some dbo → dbo M = some tbl → tbl m = some f →
       f ps = .promiseOk (.vRec id) ∨ f ps = .sync (.vRec id) →
       (env.recs id).prov = .mySqlModel N → N.data = c0 :: cs →
       getPlainObject env (.vStr "MySql") (.vRec id) = .ok p →
       (env.recs id).methods m2 = some g →
       (g p2 = .promiseOk v ∨ (g p2 = .sync v ∧ isThenable v = .ok false)) →
       v ≠ .vUndefined →
       (runMsgs env initSock
         [mkReq "MySql" t M m ps,
          mkReq "data" t (String.mk (c0.toLower :: cs)) m2 p2]).2
         = ([.payload p, .payload v], [])) ∧
    (∀ (env : Env) (t M m m2 : String) (ps p2 : List JVal)
       (modelFn : String → Option (String → Option (List JVal → CallResult)))
       (tbl : String → Option (List JVal → CallResult)) (f g : List JVal → CallResult)
       (id : Nat) (N : String) (c0 : Char) (cs : List Char) (p v : JVal),
       t ≠ "Mongo" →
       env.mongoConn t = some modelFn → modelFn M = some tbl → tbl m = some f →
       f ps = .promiseOk (.vRec id) →
       (env.recs id).prov = .mongoModel N → N.data = c0 :: cs →
       getPlainObject env (.vStr "Mongo") (.vRec id) = .ok p →
       (env.recs id).methods m2 = some g →
       (g p2 = .promiseOk v ∨ (g p2 = .sync v ∧ isThenable v = .ok false)) →
       v ≠ .vUndefined →
       (runMsgs env initSock
         [mkReq "Mongo" t M m ps,
          mkReq "data" t (String.mk (c0.toLower :: cs)) m2 p2]).2
         = ([.payload p, .payload v], [])) := by
  constructor
  · intro env t M m m2 ps p2 dbo tbl f g id N c0 cs p v ht h1 h2 h3 h4 h5 h6 hp h7 h8 hv
    have hms : initSock.props "MySql" = some .mySqlRef := rfl
    have step1 := handleData_mysql_single_ok env initSock t M m ps dbo tbl f id N c0 cs p
      ht hms h1 h2 h3 h4 h5 h6 hp
    have step2 := handleData_cached_method_ok env t (String.mk (c0.toLower :: cs)) m2 p2
      (setProp (setProp initSock t (.cache emptyCache)) t
        (.cache (putSingle emptyCache (String.mk (c0.toLower :: cs)) (.vRec id))))
      (putSingle emptyCache (String.mk (c0.toLower :: cs)) (.vRec id)) id g v
      (setProp_props_same ..) (putSingle_data_same ..) h7 h8 hv
    simp only [runMsgs, step1, step2]
    simp
  · intro env t M m m2 ps p2 modelFn tbl f g id N c0 cs p v ht h1 h2 h3 h4 h5 h6 hp h7 h8 hv
    have hmg : initSock.props "Mongo" = some .mongoRef := rfl
    have step1 := handleData_mongo_single_ok env initSock t M m ps modelFn tbl f id N c0 cs p
      ht hmg h1 h2 h3 h4 h5 h6 hp
    have step2 := handleData_cached_method_ok env t (String.mk (c0.toLower :: cs)) m2 p2
      (setProp (setProp initSock t (.cache emptyCache)) t
        (.cache (putSingle emptyCache (String.mk (c0.toLower :: cs)) (.vRec id))))
      (putSingle emptyCache (String.mk (c0.toLower :: cs)) (.vRec id)) id g v
      (setProp_props_same ..) (putSingle_data_same ..) h7 h8 hv
    simp only [runMsgs, step1, step2]
    simp

/-- C1 witness: the end-to-end example of the specification at the
demonstration environment, on the relational side with Student/getParents
and on the document side with Parent/getKids. -/
theorem direct_then_cached_roundtrip_witness :
    (runMsgs envDemo initSock
      [mkReq "MySql" "t1" "Student" "findById" [.vNum 5],
       mkReq "data" "t1" "student" "getParents" []]).2
      = ([.payload (.vPlain [("id", .vNum 5)]), .payload (.vArr [.vStr "parent"])], []) ∧
    (runMsgs envDemo initSock
      [mkReq "Mongo" "t2" "Parent" "findOne" [],
       mkReq "data" "t2" "parent" "getKids" []]).2
      = ([.payload (.vPlain [("name", .vStr "pat")]), .payload (.vArr [])], []) :=
  ⟨direct_then_cached_roundtrip.1 envDemo "t1" "Student" "findById" "getParents" [.vNum 5] []
    t1Db studentTbl (fun _ => .promiseOk (.vRec 0))
    (fun _ => .promiseOk (.vArr [.vStr "parent"]))
    0 "Student" 'S' "tudent".data (.vPlain [("id", .vNum 5)]) (.vArr [.vStr "parent"])
    (by decide) rfl rfl rfl (Or.inl rfl) rfl (by decide) rfl rfl (Or.inl rfl)
    (fun h => JVal.noConfusion h),
   direct_then_cached_roundtrip.2 envDemo "t2" "Parent" "findOne" "getKids" [] []
    t2Conn parentTbl (fun _ => .promiseOk (.vRec 2))
    (fun _ => .promiseOk (.vArr []))
    2 "Parent" 'P' "arent".data (.vPlain [("name", .vStr "pat")]) (.vArr [])
    (by decide) rfl rfl rfl rfl rfl (by decide) rfl rfl (Or.inl rfl)
    (fun h => JVal.noConfusion h)⟩

/-- `resolved` on a direct relational call that resolved to undefined: the
undefined-to-null conversion makes the subsequent `_getModelName` read
`.Model` on null, which throws before anything is stored. -/
theorem resolvedFn_mysql_undefined (env : Env) (t : String) (s : SockState) :
    resolvedFn env (.vStr "MySql") (.vStr t) (setProp s t (.cache emptyCache)) .vUndefined
      = (setProp s t (.cache emptyCache),
         .error "TypeError: Cannot read properties of null reading Model") := by
  simp [resolvedFn, lookupCache_setProp_cache, JVal.isStr, toKey, getModelName]

/-- C10: when a direct call against either provider resolves to an array,
the array object is stored in the tenant's record-set cache and its
elements are then replaced in place by their plain forms, so the cached set
holds the normalized plain elements (the hypothesis that the element-wise
normalization finishes without a throw excludes arrays with null or
undefined elements, on which the code throws mid-loop and writes no
payload); a non-array record, by contrast, is cached in its original
instance form (the record itself, methods and all) while only the response
carries the plain form. -/
theorem array_cached_plain_single_cached_instance :
    (∀ (env : Env) (t : String) (s : SockState) (c : TenantCache) (xs ys : List JVal)
       (name : String),
       lookupCache s t = .ok c →
       getModelName env (xs.headD .vUndefined) = .ok name →
       normalizeList env (.vStr "MySql") xs = (ys, none) →
       resolvedFn env (.vStr "MySql") (.vStr t) s (.vArr xs)
         = (setProp s t (.cache (putSet c name ys)), .ok (.payload (.vArr ys)))) ∧
    (∀ (env : Env) (t : String) (s : SockState) (c : TenantCache) (id : Nat)
       (name : String) (p : JVal),
       lookupCache s t = .ok c →
       getModelName env (.vRec id) = .ok name →
       getPlainObject env (.vStr "MySql") (.vRec id) = .ok p →
       resolvedFn env (.vStr "MySql") (.vStr t) s (.vRec id)
         = (setProp s t (.cache (putSingle c name (.vRec id))), .ok (.payload p))) ∧
    (∀ (env : Env) (t : String) (s : SockState) (c : TenantCache) (xs ys : List JVal)
       (name : String),
       lookupCache s t = .ok c →
       getModelName env (xs.headD .vUndefined) = .ok name →
       normalizeList env (.vStr "Mongo") xs = (ys, none) →
       resolvedFn env (.vStr "Mongo") (.vStr t) s (.vArr xs)
         = (setProp s t (.cache (putSet c name ys)), .ok (.payload (.vArr ys)))) ∧
    (∀ (env : Env) (t : String) (s : SockState) (c : TenantCache) (id : Nat)
       (name : String) (p : JVal),
       lookupCache s t = .ok c →
       getModelName env (.vRec id) = .ok name →
       getPlainObject env (.vStr "Mongo") (.vRec id) = .ok p →
       resolvedFn env (.vStr "Mongo") (.vStr t) s (.vRec id)
         = (setProp s t (.cache (putSingle c name (.vRec id))), .ok (.payload p))) :=
  ⟨fun env t s c xs ys name hc hn hnorm =>
     resolvedFn_mysql_array env t s c xs ys name hc hn hnorm,
   fun env t s c id name p hc hn hp =>
     resolvedFn_mysql_single env t s c (.vRec id) name p
       (fun _ h => JVal.noConfusion h) (fun h => JVal.noConfusion h) hc hn hp,
   fun env t s c xs ys name hc hn hnorm =>
     resolvedFn_mongo_array env t s c xs ys name hc hn hnorm,
   fun env t s c id name p hc hn hp =>
     resolvedFn_mongo_single env t s c (.vRec id) name p
       (fun _ h => JVal.noConfusion h) (fun h => JVal.noConfusion h) hc hn hp⟩

/-- C10 witness: at the demonstration environment, on each provider an
array is cached in plain form while a single record is cached as the
instance. -/
theorem array_cached_plain_single_cached_instance_witness :
    resolvedFn envDemo (.vStr "MySql") (.vStr "t1")
        (setProp initSock "t1" (.cache emptyCache)) (.vArr [.vRec 0, .vRec 1])
      = (setProp (setProp initSock "t1" (.cache emptyCache)) "t1"
          (.cache (putSet emptyCache "student"
            [.vPlain [("id", .vNum 5)], .vPlain [("id", .vNum 5)]])),
         .ok (.payload (.vArr [.vPlain [("id", .vNum 5)], .vPlain [("id", .vNum 5)]]))) ∧
    resolvedFn envDemo (.vStr "MySql") (.vStr "t1")
        (setProp initSock "t1" (.cache emptyCache)) (.vRec 0)
      = (setProp (setProp initSock "t1" (.cache emptyCache)) "t1"
          (.cache (putSingle emptyCache "student" (.vRec 0))),
         .ok (.payload (.vPlain [("id", .vNum 5)]))) ∧
    resolvedFn envDemo (.vStr "Mongo") (.vStr "t2")
        (setProp initSock "t2" (.cache emptyCache)) (.vArr [.vRec 2])
      = (setProp (setProp initSock "t2" (.cache emptyCache)) "t2"
          (.cache (putSet emptyCache "parent" [.vPlain [("name", .vStr "pat")]])),
         .ok (.payload (.vArr [.vPlain [("name", .vStr "pat")]]))) ∧
    resolvedFn envDemo (.vStr "Mongo") (.vStr "t2")
        (setProp initSock "t2" (.cache emptyCache)) (.vRec 2)
      = (setProp (setProp initSock "t2" (.cache emptyCache)) "t2"
          (.cache (putSingle emptyCache "parent" (.vRec 2))),
         .ok (.payload (.vPlain [("name", .vStr "pat")]))) :=
  ⟨array_cached_plain_single_cached_instance.1 envDemo "t1"
      (setProp initSock "t1" (.cache emptyCache)) emptyCache [.vRec 0, .vRec 1]
      [.vPlain [("id", .vNum 5)], .vPlain [("id", .vNum 5)]] "student" rfl rfl rfl,
   array_cached_plain_single_cached_instance.2.1 envDemo "t1"
      (setProp initSock "t1" (.cache emptyCache)) emptyCache 0 "student"
      (.vPlain [("id", .vNum 5)]) rfl rfl rfl,
   array_cached_plain_single_cached_instance.2.2.1 envDemo "t2"
      (setProp initSock "t2" (.cache emptyCache)) emptyCache [.vRec 2]
      [.vPlain [("name", .vStr "pat")]] "parent" rfl rfl rfl,
   array_cached_plain_single_cached_instance.2.2.2 envDemo "t2"
      (setProp initSock "t2" (.cache emptyCache)) emptyCache 2 "parent"
      (.vPlain [("name", .vStr "pat")]) rfl rfl rfl⟩

/-- C4 amended: a request whose invocation fails with a synchronous throw
(in the dynamic call chain or in the invoked method) produces the error
response carrying the thrown message and stores no new record. For a
cached-record request the state is truly unchanged, but a direct request
against either provider has already reset the requested tenant's cache to
empty before invoking, so that tenant's prior entries are lost rather than
preserved. -/
theorem sync_failure_error_response_cache_reset :
    (∀ (env : Env) (s : SockState) (t M m msg : String) (ps : List JVal),
       propChain env (setProp s t (.cache emptyCache)) "MySql" t M m ps = .error msg ∨
       propChain env (setProp s t (.cache emptyCache)) "MySql" t M m ps = .ok (.throws msg) →
       handleData env s (mkReq "MySql" t M m ps)
         = ⟨setProp s t (.cache emptyCache), [.errMsg msg], []⟩ ∧
       (handleData env s (mkReq "MySql" t M m ps)).state.props t
         = some (.cache emptyCache)) ∧
    (∀ (env : Env) (s : SockState) (t M m msg : String) (ps : List JVal),
       mongoChain env (setProp s t (.cache emptyCache)) t M m ps = .error msg ∨
       mongoChain env (setProp s t (.cache emptyCache)) t M m ps = .ok (.throws msg) →
       handleData env s (mkReq "Mongo" t M m ps)
         = ⟨setProp s t (.cache emptyCache), [.errMsg msg], []⟩ ∧
       (handleData env s (mkReq "Mongo" t M m ps)).state.props t
         = some (.cache emptyCache)) ∧
    (∀ (env : Env) (s : SockState) (dbs t M m msg : String) (ps : List JVal),
       dbs = "data" ∨ dbs = "dataSets" →
       (propChain env s t dbs M m ps = .error msg ∨
        propChain env s t dbs M m ps = .ok (.throws msg)) →
       handleData env s (mkReq dbs t M m ps) = ⟨s, [.errMsg msg], []⟩) := by
  refine ⟨fun env s t M m msg ps hfail => ?_,
          fun env s t M m msg ps hfail => ?_,
          fun env s dbs t M m msg ps hdb hfail => ?_⟩
  · have heq : handleData env s (mkReq "MySql" t M m ps)
        = ⟨setProp s t (.cache emptyCache), [.errMsg msg], []⟩ := by
      rw [handleData_mysql_eq]
      rcases hfail with h | h
      · rw [h]
        rfl
      · rw [h]
        rfl
    exact ⟨heq, by rw [heq]; exact setProp_props_same ..⟩
  · have heq : handleData env s (mkReq "Mongo" t M m ps)
        = ⟨setProp s t (.cache emptyCache), [.errMsg msg], []⟩ := by
      rw [handleData_mongo_eq]
      rcases hfail with h | h
      · rw [h]
        rfl
      · rw [h]
        rfl
    exact ⟨heq, by rw [heq]; exact setProp_props_same ..⟩
  · rcases hdb with rfl | rfl
    · rw [handleData_data_eq]
      rcases hfail with h | h
      · rw [h]
        rfl
      · rw [h]
        rfl
    · rw [handleData_dataSets_eq]
      rcases hfail with h | h
      · rw [h]
        rfl
      · rw [h]
        rfl

/-- C4 amended witness: a throwing relational method, a document request
for an unknown tenant, and a cached request for an unknown tenant all
answer with the failure message; the two direct ones leave the tenant with
a fresh empty cache, the cached one leaves the state untouched. -/
theorem sync_failure_error_response_cache_reset_witness :
    (handleData envDemo initSock (mkReq "MySql" "t1" "Student" "boom" [])
       = ⟨setProp initSock "t1" (.cache emptyCache), [.errMsg "kaboom"], []⟩ ∧
     (handleData envDemo initSock (mkReq "MySql" "t1" "Student" "boom" [])).state.props "t1"
       = some (.cache emptyCache)) ∧
    (handleData envDemo initSock (mkReq "Mongo" "t0" "Parent" "findOne" [])
       = ⟨setProp initSock "t0" (.cache emptyCache),
          [.errMsg "TypeError: Cannot read properties of undefined reading model"], []⟩ ∧
     (handleData envDemo initSock (mkReq "Mongo" "t0" "Parent" "findOne" [])).state.props "t0"
       = some (.cache emptyCache)) ∧
    handleData envDemo initSock (mkReq "data" "t9" "student" "getParents" [])
      = ⟨initSock, [.errMsg "TypeError: Cannot read properties of undefined"], []⟩ :=
  ⟨sync_failure_error_response_cache_reset.1 envDemo initSock "t1" "Student" "boom"
     "kaboom" [] (Or.inr rfl),
   sync_failure_error_response_cache_reset.2.1 envDemo initSock "t0" "Parent" "findOne"
     "TypeError: Cannot read properties of undefined reading model" [] (Or.inl rfl),
   sync_failure_error_response_cache_reset.2.2 envDemo initSock "data" "t9" "student"
     "getParents" "TypeError: Cannot read properties of undefined" [] (Or.inl rfl)
     (Or.inl rfl)⟩

/-- C7 amended: an invocation that resolves to undefined is converted to
null by `resolved`; a cached-record request (CachedRecord or
CachedRecordSet, synchronous or asynchronous result) then answers with
exactly one response whose payload is null. A direct request instead
derives the cache key from null, which throws reading `.Model`: the
relational synchronous path answers with that error (the tenant cache left
freshly emptied), while the asynchronous path of either provider produces
no response at all, only an unhandled rejection; a document-branch method
returning undefined synchronously never reaches `resolved` — the branch
throws reading `.then` of undefined and answers with that error. -/
theorem undefined_result_behavior :
    (∀ (env : Env) (s : SockState) (t M m : String) (ps : List JVal) (c : TenantCache)
       (r : JVal),
       s.props t = some (.cache c) → c.data M = some r →
       (invokeVal env r m ps = .promiseOk .vUndefined ∨
        invokeVal env r m ps = .sync .vUndefined) →
       handleData env s (mkReq "data" t M m ps) = ⟨s, [.payload .vNull], []⟩) ∧
    (∀ (env : Env) (s : SockState) (t M m : String) (ps : List JVal) (c : TenantCache)
       (arr : List JVal),
       s.props t = some (.cache c) → c.dataSets M = some arr →
       (env.arrayMethod arr m ps = .promiseOk .vUndefined ∨
        env.arrayMethod arr m ps = .sync .vUndefined) →
       handleData env s (mkReq "dataSets" t M m ps) = ⟨s, [.payload .vNull], []⟩) ∧
    (∀ (env : Env) (s : SockState) (t M m : String) (ps : List JVal),
       propChain env (setProp s t (.cache emptyCache)) "MySql" t M m ps = .ok (.sync .vUndefined) →
       handleData env s (mkReq "MySql" t M m ps)
         = ⟨setProp s t (.cache emptyCache),
            [.errMsg "TypeError: Cannot read properties of null reading Model"], []⟩) ∧
    (∀ (env : Env) (s : SockState) (t M m : String) (ps : List JVal),
       propChain env (setProp s t (.cache emptyCache)) "MySql" t M m ps
           = .ok (.promiseOk .vUndefined) →
       handleData env s (mkReq "MySql" t M m ps)
         = ⟨setProp s t (.cache emptyCache), [],
            ["TypeError: Cannot read properties of null reading Model"]⟩) ∧
    (∀ (env : Env) (s : SockState) (t M m : String) (ps : List JVal),
       mongoChain env (setProp s t (.cache emptyCache)) t M m ps
           = .ok (.promiseOk .vUndefined) →
       handleData env s (mkReq "Mongo" t M m ps)
         = ⟨setProp s t (.cache emptyCache), [],
            ["TypeError: Cannot read properties of null reading Model"]⟩) ∧
    (∀ (env : Env) (s : SockState) (t M m : String) (ps : List JVal),
       mongoChain env (setProp s t (.cache emptyCache)) t M m ps = .ok (.sync .vUndefined) →
       handleData env s (mkReq "Mongo" t M m ps)
         = ⟨setProp s t (.cache emptyCache),
            [.errMsg "TypeError: Cannot read properties of undefined reading then"], []⟩) := by
  refine ⟨fun env s t M m ps c r hc hm hi => ?_,
          fun env s t M m ps c arr hc hm hi => ?_,
          fun env s t M m ps hch => ?_,
          fun env s t M m ps hch => ?_,
          fun env s t M m ps hch => ?_,
          fun env s t M m ps hch => ?_⟩
  · have hch : propChain env s t "data" M m ps = .ok (invokeVal env r m ps) := by
      simp only [propChain, hc, hm]
      simp
    rw [handleData_data_eq, hch]
    rcases hi with hi | hi
    · rw [hi]
      exact routeDirect_promiseOk_ok env _ _ _ _ _ _ rfl
    · rw [hi]
      exact routeDirect_sync_ok env _ _ _ _ _ _ rfl rfl
  · have hch : propChain env s t "dataSets" M m ps = .ok (env.arrayMethod arr m ps) := by
      simp only [propChain, hc, hm]
      simp
    rw [handleData_dataSets_eq, hch]
    rcases hi with hi | hi
    · rw [hi]
      exact routeDirect_promiseOk_ok env _ _ _ _ _ _ rfl
    · rw [hi]
      exact routeDirect_sync_ok env _ _ _ _ _ _ rfl rfl
  · rw [handleData_mysql_eq, hch]
    exact routeDirect_sync_err env _ _ _ _ _ _ rfl (resolvedFn_mysql_undefined env t s)
  · rw [handleData_mysql_eq, hch]
    exact routeDirect_promiseOk_err env _ _ _ _ _ _ (resolvedFn_mysql_undefined env t s)
  · rw [handleData_mongo_eq, hch]
    exact routeMongo_promiseOk_err env _ _ _ _ _ _ (resolvedFn_mongo_undefined env t s)
  · rw [handleData_mongo_eq, hch]
    rfl

/-- C7 amended witness: a cached-record method resolving to undefined
answers with the null payload. -/
theorem undefined_result_behavior_witness :
    handleData envDemo s1AfterFind (mkReq "data" "t1" "student" "asyncNothing" [])
      = ⟨s1AfterFind, [.payload .vNull], []⟩ :=
  undefined_result_behavior.1 envDemo s1AfterFind "t1" "student" "asyncNothing" []
    (putSingle emptyCache "student" (.vRec 0)) (.vRec 0) rfl rfl (Or.inl rfl)

/-- C5 amended: a message that parses to a falsy value, or whose provider
field is none of the four enum values, is rejected before any dispatch with
the signature-mismatch response and an unchanged state; a message that is
not valid JSON is likewise rejected before dispatch, but its error response
carries the JSON parse error's message instead of the signature message;
missing tenant, model or method fields are not validated (such messages
proceed to dispatch, as the counterexample shows). -/
theorem message_validation_behavior :
    (∀ (env : Env) (s : SockState) (m : String),
       handleData env s (.badJson m) = ⟨s, [.errMsg m], []⟩) ∧
    (∀ (env : Env) (s : SockState) (data : JVal), jsFalsy data = true →
       handleData env s (.parsed data) = ⟨s, [.errMsg "Signature does not match."], []⟩) ∧
    (∀ (env : Env) (s : SockState) (data : JVal), jsFalsy data = false →
       (getProp data "db").isStr "data" = false →
       (getProp data "db").isStr "dataSets" = false →
       (getProp data "db").isStr "MySql" = false →
       (getProp data "db").isStr "Mongo" = false →
       handleData env s (.parsed data) = ⟨s, [.errMsg "Signature does not match."], []⟩) := by
  refine ⟨fun env s m => rfl, fun env s data h => ?_, fun env s data h h1 h2 h3 h4 => ?_⟩
  · simp [handleData, h]
  · simp [handleData, handleParsed, h, h1, h2, h3, h4]

/-- C5 amended witness: a truthy non-object message (no fields at all) is
rejected with the signature-mismatch response before dispatch. -/
theorem message_validation_behavior_witness :
    handleData envDemo initSock (.parsed (.vNum 7))
      = ⟨initSock, [.errMsg "Signature does not match."], []⟩ :=
  message_validation_behavior.2.2 envDemo initSock (.vNum 7) rfl rfl rfl rfl rfl

/-!
Provider-reference clobbering: lemmas about requests whose tenant key
collides with the provider keys.
-/

theorem isStr_eq (v : JVal) (str : String) (h : v.isStr str = true) : v = .vStr str := by
  cases v <;> simp [JVal.isStr] at h
  rw [h]

theorem handleData_falsy_sig (env : Env) (s : SockState) (data : JVal)
    (h : jsFalsy data = true) :
    handleData env s (.parsed data) = ⟨s, [.errMsg "Signature does not match."], []⟩ := by
  simp [handleData, h]

theorem handleData_not_enum_sig (env : Env) (s : SockState) (data : JVal)
    (h : jsFalsy data = false)
    (h1 : (getProp data "db").isStr "data" = false)
    (h2 : (getProp data "db").isStr "dataSets" = false)
    (h3 : (getProp data "db").isStr "MySql" = false)
    (h4 : (getProp data "db").isStr "Mongo" = false) :
    handleData env s (.parsed data) = ⟨s, [.errMsg "Signature does not match."], []⟩ := by
  simp [handleData, handleParsed, h, h1, h2, h3, h4]

theorem handleData_mysql_direct_eq (env : Env) (s : SockState) (data : JVal)
    (h : jsFalsy data = false)
    (hdb : getProp data "db" = .vStr "MySql") :
    handleData env s (.parsed data) =
      routeDirect env (setProp s (toKey (getProp data "tenant")) (.cache emptyCache))
        (.vStr "MySql") (getProp data "tenant")
        (propChain env (setProp s (toKey (getProp data "tenant")) (.cache emptyCache))
          "MySql" (toKey (getProp data "tenant"))
          (toKey (getProp data "model")) (toKey (getProp data "method"))
          (match getProp data "params" with | .vArr xs => xs | v => [v])) := by
  simp [handleData, handleParsed, dispatchReq, h, hdb, JVal.isStr, toKey]

theorem handleData_mongo_direct_eq (env : Env) (s : SockState) (data : JVal)
    (h : jsFalsy data = false)
    (hdb : getProp data "db" = .vStr "Mongo") :
    handleData env s (.parsed data) =
      routeMongo env (setProp s (toKey (getProp data "tenant")) (.cache emptyCache))
        (.vStr "Mongo") (getProp data "tenant")
        (mongoChain env (setProp s (toKey (getProp data "tenant")) (.cache emptyCache))
          (toKey (getProp data "tenant"))
          (toKey (getProp data "model")) (toKey (getProp data "method"))
          (match getProp data "params" with | .vArr xs => xs | v => [v])) := by
  simp [handleData, handleParsed, dispatchReq, h, hdb, JVal.isStr, toKey]

theorem handleData_data_cached_eq (env : Env) (s : SockState) (data : JVal)
    (h : jsFalsy data = false)
    (hdb : getProp data "db" = .vStr "data") :
    handleData env s (.parsed data) =
      routeDirect env s (.vStr "data") (getProp data "tenant")
        (propChain env s (toKey (getProp data "tenant")) "data"
          (toKey (getProp data "model")) (toKey (getProp data "method"))
          (match getProp data "params" with | .vArr xs => xs | v => [v])) := by
  simp [handleData, handleParsed, dispatchReq, h, hdb, JVal.isStr, toKey]

theorem handleData_dataSets_cached_eq (env : Env) (s : SockState) (data : JVal)
    (h : jsFalsy data = false)
    (hdb : getProp data "db" = .vStr "dataSets") :
    handleData env s (.parsed data) =
      routeDirect env s (.vStr "dataSets") (getProp data "tenant")
        (propChain env s (toKey (getProp data "tenant")) "dataSets"
          (toKey (getProp data "model")) (toKey (getProp data "method"))
          (match getProp data "params" with | .vArr xs => xs | v => [v])) := by
  simp [handleData, handleParsed, dispatchReq, h, hdb, JVal.isStr, toKey]

/-- A property chain through a freshly emptied tenant cache always throws:
the cache member is empty or absent at every resolvable key. -/
theorem propChain_emptycache_error (env : Env) (s1 : SockState) (propA propB M m : String)
    (ps : List JVal)
    (h : s1.props propA = some (.cache emptyCache)) :
    propChain env s1 propA propB M m ps
      = .error "TypeError: Cannot read properties of undefined" := by
  unfold propChain
  rw [h]
  by_cases hb : propB = "data"
  · subst hb
    simp [emptyCache]
  · by_cases hb2 : propB = "dataSets"
    · subst hb2
      simp [emptyCache]
    · simp [hb, hb2]

/-- The document chain for a tenant literally named MySql throws whatever
sits at the Mongo key, provided the document provider has no tenant
namespace of that name. -/
theorem mongoChain_mysql_tenant_error (env : Env) (s1 : SockState) (M m : String)
    (ps : List JVal) (hM : env.mongoConn "MySql" = none) :
    mongoChain env s1 "MySql" M m ps
      = .error "TypeError: Cannot read properties of undefined reading model" := by
  unfold mongoChain
  split
  · rw [hM]
  · rfl
  · rfl
  · rfl

theorem resolvedFn_props_other (env : Env) (db tenant : JVal) (s : SockState) (v : JVal)
    (x : String) (hx : x ≠ toKey tenant) :
    (resolvedFn env db tenant s v).1.props x = s.props x := by
  unfold resolvedFn
  simp only
  repeat' split
  all_goals first
    | rfl
    | (exact setProp_props_other _ _ _ _ hx)

theorem routeDirect_props_other (env : Env) (s1 : SockState) (db tenant : JVal)
    (r : Except String CallResult) (x : String) (hx : x ≠ toKey tenant) :
    (routeDirect env s1 db tenant r).state.props x = s1.props x := by
  unfold routeDirect
  repeat' split
  all_goals first
    | rfl
    | (rename_i heq
       exact (congrArg (fun p => p.1.props x) heq).symm.trans
         (resolvedFn_props_other env db tenant s1 _ x hx))

theorem routeMongo_props_other (env : Env) (s1 : SockState) (db tenant : JVal)
    (r : Except String CallResult) (x : String) (hx : x ≠ toKey tenant) :
    (routeMongo env s1 db tenant r).state.props x = s1.props x := by
  unfold routeMongo
  repeat' split
  all_goals first
    | rfl
    | (rename_i heq
       exact (congrArg (fun p => p.1.props x) heq).symm.trans
         (resolvedFn_props_other env db tenant s1 _ x hx))

/-- Once the MySql key holds a fresh empty tenant cache, no later request
can restore or repopulate it: every request leaves the key holding the
empty cache (the document provider is assumed to have no tenant namespace
literally named MySql). -/
theorem handleData_preserves_clobber (env : Env) (s : SockState) (inb : Inbound)
    (hM : env.mongoConn "MySql" = none)
    (hs : s.props "MySql" = some (.cache emptyCache)) :
    (handleData env s inb).state.props "MySql" = some (.cache emptyCache) := by
  cases inb with
  | badJson m => exact hs
  | parsed data =>
    by_cases hf : jsFalsy data = true
    · rw [handleData_falsy_sig env s data hf]
      exact hs
    · have hf' : jsFalsy data = false := by simpa using hf
      by_cases h1 : (getProp data "db").isStr "data" = true
      · rw [handleData_data_cached_eq env s data hf' (isStr_eq _ _ h1)]
        by_cases htk : ("MySql" : String) = toKey (getProp data "tenant")
        · rw [propChain_emptycache_error env s _ "data" _ _ _ (htk ▸ hs)]
          exact hs
        · rw [routeDirect_props_other env s _ _ _ _ htk]
          exact hs
      · by_cases h2 : (getProp data "db").isStr "dataSets" = true
        · rw [handleData_dataSets_cached_eq env s data hf' (isStr_eq _ _ h2)]
          by_cases htk : ("MySql" : String) = toKey (getProp data "tenant")
          · rw [propChain_emptycache_error env s _ "dataSets" _ _ _ (htk ▸ hs)]
            exact hs
          · rw [routeDirect_props_other env s _ _ _ _ htk]
            exact hs
        · by_cases h3 : (getProp data "db").isStr "MySql" = true
          · rw [handleData_mysql_direct_eq env s data hf' (isStr_eq _ _ h3)]
            have hs1 : (setProp s (toKey (getProp data "tenant"))
                (.cache emptyCache)).props "MySql" = some (.cache emptyCache) := by
              by_cases htk : ("MySql" : String) = toKey (getProp data "tenant")
              · rw [htk]
                exact setProp_props_same ..
              · rw [setProp_props_other _ _ _ _ htk]
                exact hs
            rw [propChain_emptycache_error env _ _ _ _ _ _ hs1]
            exact hs1
          · by_cases h4 : (getProp data "db").isStr "Mongo" = true
            · rw [handleData_mongo_direct_eq env s data hf' (isStr_eq _ _ h4)]
              have hs1 : (setProp s (toKey (getProp data "tenant"))
                  (.cache emptyCache)).props "MySql" = some (.cache emptyCache) := by
                by_cases htk : ("MySql" : String) = toKey (getProp data "tenant")
                · rw [htk]
                  exact setProp_props_same ..
                · rw [setProp_props_other _ _ _ _ htk]
                  exact hs
              by_cases htk : toKey (getProp data "tenant") = "MySql"
              · rw [htk, mongoChain_mysql_tenant_error env _ _ _ _ hM]
                exact setProp_props_same ..
              · rw [routeMongo_props_other env _ _ _ _ _ (fun hx => htk hx.symm)]
                exact hs1
            · rw [handleData_not_enum_sig env s data hf'
                    (by simpa using h1) (by simpa using h2)
                    (by simpa using h3) (by simpa using h4)]
              exact hs

/-- Once the MySql key holds a fresh empty tenant cache, a direct
relational request errors: the chain reads models from the empty cache
instead of the provider. -/
theorem mysql_direct_errors (env : Env) (s : SockState) (data : JVal)
    (hs : s.props "MySql" = some (.cache emptyCache))
    (hd : isMySqlDirect (.parsed data) = true) :
    ∃ msg, (handleData env s (.parsed data)).out = [.errMsg msg] := by
  simp only [isMySqlDirect, Bool.and_eq_true, Bool.not_eq_true'] at hd
  obtain ⟨hf, hdb'⟩ := hd
  rw [handleData_mysql_direct_eq env s data hf (isStr_eq _ _ hdb')]
  have hs1 : (setProp s (toKey (getProp data "tenant"))
      (.cache emptyCache)).props "MySql" = some (.cache emptyCache) := by
    by_cases htk : ("MySql" : String) = toKey (getProp data "tenant")
    · rw [htk]
      exact setProp_props_same ..
    · rw [setProp_props_other _ _ _ _ htk]
      exact hs
  rw [propChain_emptycache_error env _ _ _ _ _ _ hs1]
  exact ⟨_, rfl⟩

/-- Along any run from a state whose MySql key holds the empty cache,
every direct relational request in the trace answers with an error. -/
theorem runTrace_mysql_direct_errors (env : Env) (hM : env.mongoConn "MySql" = none) :
    ∀ (ms : List Inbound) (s : SockState),
      s.props "MySql" = some (.cache emptyCache) →
      ∀ pr ∈ runTrace env s ms, isMySqlDirect pr.1 = true →
        ∃ msg, pr.2.out = [.errMsg msg] := by
  intro ms
  induction ms with
  | nil =>
    intro s hs pr hpr
    simp [runTrace] at hpr
  | cons m ms ih =>
    intro s hs pr hpr hd
    simp only [runTrace, List.mem_cons] at hpr
    rcases hpr with rfl | hpr
    · cases m with
      | badJson m2 => simp [isMySqlDirect] at hd
      | parsed data => exact mysql_direct_errors env s data hs hd
    · exact ih (handleData env s m).state (handleData_preserves_clobber env s m hM hs) pr hpr hd

/-- All state changes of `resolved` store tenant caches: any property of
the resulting state is either unchanged or holds a cache. -/
theorem resolvedFn_props_cases (env : Env) (db tenant : JVal) (s : SockState) (v : JVal)
    (x : String) :
    (resolvedFn env db tenant s v).1.props x = s.props x ∨
    ∃ c, (resolvedFn env db tenant s v).1.props x = some (.cache c) := by
  unfold resolvedFn
  simp only
  repeat' split
  all_goals first
    | exact Or.inl rfl
    | (by_cases hx : x = toKey tenant
       · subst hx
         exact Or.inr ⟨_, setProp_props_same ..⟩
       · exact Or.inl (setProp_props_other _ _ _ _ hx))

theorem routeDirect_props_cases (env : Env) (s1 : SockState) (db tenant : JVal)
    (r : Except String CallResult) (x : String) :
    (routeDirect env s1 db tenant r).state.props x = s1.props x ∨
    ∃ c, (routeDirect env s1 db tenant r).state.props x = some (.cache c) := by
  rcases r with m | cr
  · exact Or.inl rfl
  · cases cr with
    | throws m => exact Or.inl rfl
    | promiseErr m => exact Or.inl rfl
    | promiseOk v =>
      have h := resolvedFn_props_cases env db tenant s1 v x
      rcases hres : resolvedFn env db tenant s1 v with ⟨s2, r2⟩
      rw [hres] at h
      cases r2 with
      | ok out =>
        simp only [routeDirect, hres]
        exact h
      | error m =>
        simp only [routeDirect, hres]
        exact h
    | sync v =>
      rcases hth : isThenable v with m | b
      · simp only [routeDirect, hth]
        exact Or.inl trivial
      · cases b with
        | true =>
          simp only [routeDirect, hth]
          exact Or.inl trivial
        | false =>
          have h := resolvedFn_props_cases env db tenant s1 v x
          rcases hres : resolvedFn env db tenant s1 v with ⟨s2, r2⟩
          rw [hres] at h
          cases r2 with
          | ok out =>
            simp only [routeDirect, hth, hres]
            exact h
          | error m =>
            simp only [routeDirect, hth, hres]
            exact h

theorem routeMongo_props_cases (env : Env) (s1 : SockState) (db tenant : JVal)
    (r : Except String CallResult) (x : String) :
    (routeMongo env s1 db tenant r).state.props x = s1.props x ∨
    ∃ c, (routeMongo env s1 db tenant r).state.props x = some (.cache c) := by
  rcases r with m | cr
  · exact Or.inl rfl
  · cases cr with
    | throws m => exact Or.inl rfl
    | promiseErr m => exact Or.inl rfl
    | sync v => exact Or.inl rfl
    | promiseOk v =>
      have h := resolvedFn_props_cases env db tenant s1 v x
      rcases hres : resolvedFn env db tenant s1 v with ⟨s2, r2⟩
      rw [hres] at h
      cases r2 with
      | ok out =>
        simp only [routeMongo, hres]
        exact h
      | error m =>
        simp only [routeMongo, hres]
        exact h

/-- Once a tenant cache sits at the Mongo key, the document chain throws
whatever the tenant key: the cache exposes no `.model` resolver. -/
theorem mongoChain_cache_error (env : Env) (s1 : SockState) (tK M m : String)
    (ps : List JVal) (c : TenantCache)
    (h : s1.props "Mongo" = some (.cache c)) :
    ∃ msg, mongoChain env s1 tK M m ps = .error msg := by
  unfold mongoChain
  rw [h]
  by_cases hb : tK = "data" ∨ tK = "dataSets"
  · exact ⟨"TypeError: model is not a function", by simp [hb]⟩
  · exact ⟨"TypeError: Cannot read properties of undefined reading model", by simp [hb]⟩

/-- Once the Mongo key holds a tenant cache, it holds a tenant cache
forever: the only writes to that key (a direct request's cache
initialization and the store in `resolved`) write caches. -/
theorem handleData_preserves_mongo_cache (env : Env) (s : SockState) (inb : Inbound)
    (hs : ∃ c, s.props "Mongo" = some (.cache c)) :
    ∃ c, (handleData env s inb).state.props "Mongo" = some (.cache c) := by
  cases inb with
  | badJson m => exact hs
  | parsed data =>
    by_cases hf : jsFalsy data = true
    · rw [handleData_falsy_sig env s data hf]
      exact hs
    · have hf' : jsFalsy data = false := by simpa using hf
      by_cases h1 : (getProp data "db").isStr "data" = true
      · rw [handleData_data_cached_eq env s data hf' (isStr_eq _ _ h1)]
        rcases routeDirect_props_cases env s (.vStr "data") (getProp data "tenant") _ "Mongo"
          with h | h
        · rw [h]
          exact hs
        · exact h
      · by_cases h2 : (getProp data "db").isStr "dataSets" = true
        · rw [handleData_dataSets_cached_eq env s data hf' (isStr_eq _ _ h2)]
          rcases routeDirect_props_cases env s (.vStr "dataSets") (getProp data "tenant") _ "Mongo"
            with h | h
          · rw [h]
            exact hs
          · exact h
        · have hs1 : ∃ c, (setProp s (toKey (getProp data "tenant"))
              (.cache emptyCache)).props "Mongo" = some (.cache c) := by
            by_cases htk : ("Mongo" : String) = toKey (getProp data "tenant")
            · exact ⟨emptyCache, by rw [htk]; exact setProp_props_same ..⟩
            · obtain ⟨c, hc⟩ := hs
              exact ⟨c, by rw [setProp_props_other _ _ _ _ htk]; exact hc⟩
          by_cases h3 : (getProp data "db").isStr "MySql" = true
          · rw [handleData_mysql_direct_eq env s data hf' (isStr_eq _ _ h3)]
            rcases routeDirect_props_cases env _ (.vStr "MySql") (getProp data "tenant") _ "Mongo"
              with h | h
            · rw [h]
              exact hs1
            · exact h
          · by_cases h4 : (getProp data "db").isStr "Mongo" = true
            · rw [handleData_mongo_direct_eq env s data hf' (isStr_eq _ _ h4)]
              rcases routeMongo_props_cases env _ (.vStr "Mongo") (getProp data "tenant") _ "Mongo"
                with h | h
              · rw [h]
                exact hs1
              · exact h
            · rw [handleData_not_enum_sig env s data hf'
                    (by simpa using h1) (by simpa using h2)
                    (by simpa using h3) (by simpa using h4)]
              exact hs

/-- Once the Mongo key holds a tenant cache, a direct document request
errors: the chain reads `.model` from the cache instead of the provider. -/
theorem mongo_direct_errors (env : Env) (s : SockState) (data : JVal)
    (hs : ∃ c, s.props "Mongo" = some (.cache c))
    (hd : isMongoDirect (.parsed data) = true) :
    ∃ msg, (handleData env s (.parsed data)).out = [.errMsg msg] := by
  simp only [isMongoDirect, Bool.and_eq_true, Bool.not_eq_true'] at hd
  obtain ⟨hf, hdb'⟩ := hd
  rw [handleData_mongo_direct_eq env s data hf (isStr_eq _ _ hdb')]
  obtain ⟨c, hc⟩ := hs
  have hs1 : ∃ c', (setProp s (toKey (getProp data "tenant"))
      (.cache emptyCache)).props "Mongo" = some (.cache c') := by
    by_cases htk : ("Mongo" : String) = toKey (getProp data "tenant")
    · exact ⟨emptyCache, by rw [htk]; exact setProp_props_same ..⟩
    · exact ⟨c, by rw [setProp_props_other _ _ _ _ htk]; exact hc⟩
  obtain ⟨c', hc'⟩ := hs1
  obtain ⟨msg, hch⟩ := mongoChain_cache_error env _ (toKey (getProp data "tenant")) _ _ _ c' hc'
  rw [hch]
  exact ⟨msg, rfl⟩

/-- Along any run from a state whose Mongo key holds a tenant cache, every
direct document request in the trace answers with an error. -/
theorem runTrace_mongo_direct_errors (env : Env) :
    ∀ (ms : List Inbound) (s : SockState),
      (∃ c, s.props "Mongo" = some (.cache c)) →
      ∀ pr ∈ runTrace env s ms, isMongoDirect pr.1 = true →
        ∃ msg, pr.2.out = [.errMsg msg] := by
  intro ms
  induction ms with
  | nil =>
    intro s hs pr hpr
    simp [runTrace] at hpr
  | cons m ms ih =>
    intro s hs pr hpr hd
    simp only [runTrace, List.mem_cons] at hpr
    rcases hpr with rfl | hpr
    · cases m with
      | badJson m2 => simp [isMongoDirect] at hd
      | parsed data => exact mongo_direct_errors env s data hs hd
    · exact ih (handleData env s m).state (handleData_preserves_mongo_cache env s m hs) pr hpr hd

/-- C9: the per-connection tenant-cache namespace and the
provider-reference namespace are one namespace. A direct request whose
tenant string is exactly the provider's own key overwrites the stored
provider reference with the freshly initialized (empty) tenant cache; from
then on every later direct request targeting that provider on this
connection fails to resolve its models and answers with an error — on the
relational side provided the document provider has no tenant namespace
literally named MySql (otherwise a cross-provider call could repopulate
that key), on the document side unconditionally, since any tenant cache at
the Mongo key keeps the chain failing and is only ever replaced by another
cache. -/
theorem tenant_named_provider_clobbers_reference :
    (∀ (env : Env) (s : SockState) (M m : String) (ps : List JVal),
       (handleData env s (mkReq "MySql" "MySql" M m ps)).state.props "MySql"
         = some (.cache emptyCache)) ∧
    (∀ (env : Env) (s : SockState) (ms : List Inbound),
       env.mongoConn "MySql" = none →
       s.props "MySql" = some (.cache emptyCache) →
       ∀ pr ∈ runTrace env s ms, isMySqlDirect pr.1 = true →
         ∃ msg, pr.2.out = [.errMsg msg]) ∧
    (∀ (env : Env) (s : SockState) (M m : String) (ps : List JVal),
       (handleData env s (mkReq "Mongo" "Mongo" M m ps)).state.props "Mongo"
         = some (.cache emptyCache)) ∧
    (∀ (env : Env) (s : SockState) (ms : List Inbound),
       (∃ c, s.props "Mongo" = some (.cache c)) →
       ∀ pr ∈ runTrace env s ms, isMongoDirect pr.1 = true →
         ∃ msg, pr.2.out = [.errMsg msg]) := by
  refine ⟨fun env s M m ps => ?_, fun env s ms hM hs pr hpr hd => ?_,
          fun env s M m ps => ?_, fun env s ms hs pr hpr hd => ?_⟩
  · rw [handleData_mysql_eq,
        propChain_emptycache_error env _ _ _ _ _ _ (setProp_props_same ..)]
    exact setProp_props_same ..
  · exact runTrace_mysql_direct_errors env hM ms s hs pr hpr hd
  · rw [handleData_mongo_eq]
    obtain ⟨msg, hch⟩ := mongoChain_cache_error env
      (setProp s "Mongo" (.cache emptyCache)) "Mongo" M m ps emptyCache (setProp_props_same ..)
    rw [hch]
    exact setProp_props_same ..
  · exact runTrace_mongo_direct_errors env ms s hs pr hpr hd

/-- C9 witness: at the demonstration environment, a request with tenant
MySql (resp. Mongo) replaces that provider reference by the empty cache,
and a following ordinary request against the same provider errors even
though the provider knows the model. -/
theorem tenant_named_provider_clobbers_reference_witness :
    (handleData envDemo initSock (mkReq "MySql" "MySql" "Student" "findById" [])).state.props "MySql"
      = some (.cache emptyCache) ∧
    (∃ msg, (handleData envDemo (setProp initSock "MySql" (.cache emptyCache))
        (mkReq "MySql" "t1" "Student" "findById" [.vNum 5])).out = [.errMsg msg]) ∧
    (handleData envDemo initSock (mkReq "Mongo" "Mongo" "Parent" "findOne" [])).state.props "Mongo"
      = some (.cache emptyCache) ∧
    (∃ msg, (handleData envDemo (setProp initSock "Mongo" (.cache emptyCache))
        (mkReq "Mongo" "t2" "Parent" "findOne" [])).out = [.errMsg msg]) :=
  ⟨tenant_named_provider_clobbers_reference.1 envDemo initSock "Student" "findById" [],
   tenant_named_provider_clobbers_reference.2.1 envDemo
     (setProp initSock "MySql" (.cache emptyCache))
     [mkReq "MySql" "t1" "Student" "findById" [.vNum 5]] rfl (setProp_props_same ..)
     (mkReq "MySql" "t1" "Student" "findById" [.vNum 5],
      handleData envDemo (setProp initSock "MySql" (.cache emptyCache))
        (mkReq "MySql" "t1" "Student" "findById" [.vNum 5]))
     (by simp [runTrace]) rfl,
   tenant_named_provider_clobbers_reference.2.2.1 envDemo initSock "Parent" "findOne" [],
   tenant_named_provider_clobbers_reference.2.2.2 envDemo
     (setProp initSock "Mongo" (.cache emptyCache))
     [mkReq "Mongo" "t2" "Parent" "findOne" []] ⟨emptyCache, setProp_props_same ..⟩
     (mkReq "Mongo" "t2" "Parent" "findOne" [],
      handleData envDemo (setProp initSock "Mongo" (.cache emptyCache))
        (mkReq "Mongo" "t2" "Parent" "findOne" []))
     (by simp [runTrace]) rfl⟩
